import Mathlib

/-!
# ARM SP805 watchdog driver

A shallow embedding of `drivers/watchdog/sp805_wdt.c`.

* C unsigned integers are natural numbers, reduced modulo `2^32` / `2^64`
  at the places where the C types wrap or narrow.
* The driver structure is an explicit state value; every entry point is a
  function from the state to an outcome (return value, next state, and the
  list of externally visible events: register accesses and log lines).
* The spin lock is not represented: the entry points are modelled as
  running one at a time.
* A division by zero has no outcome (`none`).
-/

namespace SP805

/-! ## Constants of the source -/

/-- Width of `unsigned int` / `u32`. -/
def U32 : Nat := 2 ^ 32

/-- Width of `u64`. -/
def U64 : Nat := 2 ^ 64

/-- Default timeout in seconds. -/
def DEFAULT_TIMEOUT : Nat := 60

def WDTLOAD : Nat := 0x000
def LOAD_MIN : Nat := 0x00000001
def LOAD_MAX : Nat := 0xFFFFFFFF
def WDTVALUE : Nat := 0x004
def WDTCONTROL : Nat := 0x008
def INT_ENABLE : Nat := 1 <<< 0
def RESET_ENABLE : Nat := 1 <<< 1
def WDTINTCLR : Nat := 0x00C
def WDTRIS : Nat := 0x010
def WDTMIS : Nat := 0x014
def INT_MASK : Nat := 1 <<< 0
def WDTLOCK : Nat := 0xC00
def UNLOCK : Nat := 0x1ACCE551
def LOCK : Nat := 0x00000001

/-- Value of `IRQ_HANDLED` (`enum irqreturn`). -/
def IRQ_HANDLED : Int := 1

/-- Value of `ENOMEM`. -/
def ENOMEM : Int := 12

/-- Value of `MAX_ERRNO`: pointers in the last `MAX_ERRNO` addresses encode errors. -/
def MAX_ERRNO : Int := 4095

/-! ## Externally visible events -/

/-- One externally visible action of the driver. -/
inductive Event where
  /-- The call `writel_relaxed(val, base + off)`. -/
  | writel (val off : Nat)
  /-- The call `readl_relaxed(base + off)`. -/
  | readl (off : Nat)
  /-- A `pr_crit` log line. -/
  | pr_crit (msg : String)
  /-- A `dev_err` log line. -/
  | dev_err (msg : String)
  /-- A `dev_warn` log line. -/
  | dev_warn (msg : String)
  /-- A `dev_info` log line. -/
  | dev_info (msg : String)
  deriving DecidableEq, Repr

/-! ## The register block -/

/-- Contents of the memory-mapped register block (`wdt->base`), one field
per register of the layout `WDTLOAD .. WDTLOCK`. `intclr` records the last
value accepted by the write-only interrupt-clear register. -/
structure Regs where
  load : Nat
  value : Nat
  control : Nat
  intclr : Nat
  ris : Nat
  mis : Nat
  lock : Nat
  deriving DecidableEq, Repr

/-- Modelled from the spec: the effect of a 32-bit store on the SP805 register
block (the hardware is not part of the sources). The lock register accepts
every store; the load, control and interrupt-clear registers accept a store
only while the lock register holds `UNLOCK`; a store to the load register
restarts the countdown from the stored value; a store to the interrupt-clear
register clears the pending interrupt; the remaining registers are read-only. -/
def Regs.store (r : Regs) (val off : Nat) : Regs :=
  if off = WDTLOCK then { r with lock := val }
  else if r.lock ≠ UNLOCK then r
  else if off = WDTLOAD then { r with load := val, value := val }
  else if off = WDTCONTROL then { r with control := val }
  else if off = WDTINTCLR then { r with intclr := val, ris := 0, mis := 0 }
  else r

/-- Modelled from the spec: the value a 32-bit load returns from the register
block (the hardware is not part of the sources). The interrupt-clear register
is write-only. -/
def Regs.fetch (r : Regs) (off : Nat) : Nat :=
  if off = WDTLOAD then r.load % U32
  else if off = WDTVALUE then r.value % U32
  else if off = WDTCONTROL then r.control % U32
  else if off = WDTRIS then r.ris % U32
  else if off = WDTMIS then r.mis % U32
  else if off = WDTLOCK then r.lock % U32
  else 0

/-- The register block together with the accesses made to it so far, in
program order. -/
structure Bus where
  regs : Regs
  trace : List Event
  deriving DecidableEq, Repr

/-- The call `writel_relaxed(val, base + off)`. -/
def writel_relaxed (val off : Nat) (b : Bus) : Bus :=
  { regs := b.regs.store val off, trace := b.trace ++ [Event.writel val off] }

/-- The call `readl_relaxed(base + off)`: the value read and the bus afterwards. -/
def readl_relaxed (off : Nat) (b : Bus) : Nat × Bus :=
  (b.regs.fetch off, { b with trace := b.trace ++ [Event.readl off] })

/-! ## The clock collaborator -/

/-- Modelled from the spec: the clock collaborator (`struct clk`; the clock
framework is not part of the sources), with the interface `getRate`,
`enable -> Result`, `disable`. `rate` is the tick frequency, `enable_count`
the number of outstanding enables, `enable_ret` the result the clock gives to
an enable request (`0` for success, an error code otherwise). -/
structure clk where
  rate : Nat
  enable_count : Nat
  enable_ret : Int
  deriving DecidableEq, Repr

/-- Modelled from the spec: `clk_get_rate`, an `unsigned long`. -/
def clk_get_rate (c : clk) : Nat := c.rate % U64

/-- Modelled from the spec: `clk_prepare_enable`; a failed enable leaves the
clock as it was. -/
def clk_prepare_enable (c : clk) : Int × clk :=
  if c.enable_ret = 0 then (0, { c with enable_count := c.enable_count + 1 })
  else (c.enable_ret, c)

/-- Modelled from the spec: `clk_disable_unprepare`; releasing a clock that
is not enabled changes nothing. -/
def clk_disable_unprepare (c : clk) : clk :=
  { c with enable_count := c.enable_count - 1 }

/-- Modelled from the spec: the helper `div_u64` of `linux/math64.h` (not part
of the sources), truncating unsigned 64-bit integer division. The kernel
declares it as `div_u64(u64 dividend, u32 divisor)`: the quotient is taken by
the low 32 bits of the divisor passed. A zero divisor has no result. (A
non-zero divisor whose low 32 bits are all zero is given the quotient 0; the
theorems that speak about a quotient by the clock rate assume a rate below
`2^32`, where the divisor passes unchanged.) -/
def div_u64 (dividend divisor : Nat) : Option Nat :=
  if divisor = 0 then none else some (dividend % U64 / (divisor % U32))

/-! ## Driver state -/

/-- The fields of `struct watchdog_device` the driver reads or writes:
the effective timeout, and the framework-owned `WDOG_ACTIVE` status bit and
`nowayout` setting. -/
structure watchdog_device where
  timeout : Nat
  active : Bool
  nowayout : Bool
  deriving DecidableEq, Repr

/-- The device structure `struct sp805_wdt`; `regs` is the register block
behind `base`. -/
structure sp805_wdt where
  wdd : watchdog_device
  regs : Regs
  clk : clk
  load_val : Nat
  irq : Int
  ris_status : Bool
  deriving DecidableEq, Repr

/-- What an entry point leaves behind: its return value, the device structure
afterwards, and the events it produced in program order. -/
structure Outcome where
  ret : Int
  wdt : sp805_wdt
  events : List Event
  deriving DecidableEq, Repr

/-! ## Entry points -/

/-- Function `wdt_setload`: finds the load value that will reset the system in
the required timeout. -/
def wdt_setload (wdt : sp805_wdt) (timeout : Nat) : Option Outcome := do
  let timeout := timeout % U32
  -- line 88
  let rate := clk_get_rate wdt.clk
  -- line 96, in `u64`: the product and the subtraction wrap modulo `2^64`
  let half ← div_u64 rate 2
  let load := (half * timeout % U64 + U64 - 1) % U64
  -- lines 98-99
  let load := if load > LOAD_MAX then LOAD_MAX else load
  let load := if load < LOAD_MIN then LOAD_MIN else load
  -- lines 102-104: both stores narrow to `unsigned int`; `div_u64` divides by
  -- the low 32 bits of `rate`
  let secs ← div_u64 (((load + 1) * 2 % U64 + rate / 2) % U64) rate
  some { ret := 0
         wdt := { wdt with load_val := load % U32
                           wdd := { wdt.wdd with timeout := secs % U32 } }
         events := [] }

/-- Function `wdt_timeleft`: number of seconds left for the reset to occur
(the return value), from the live countdown and raw interrupt status. -/
def wdt_timeleft (wdt : sp805_wdt) : Option Outcome := do
  let rate := clk_get_rate wdt.clk
  let b : Bus := { regs := wdt.regs, trace := [] }
  let (value, b) := readl_relaxed WDTVALUE b
  let load := value
  -- lines 122-123: `wdt->load_val + 1` is an `unsigned int` sum
  let (ris, b) := readl_relaxed WDTRIS b
  let load := if ris &&& INT_MASK = 0 then (load + (wdt.load_val + 1) % U32) % U64 else load
  -- line 126: `div_u64` divides by the low 32 bits of `rate`, and the quotient
  -- narrows to the `unsigned int` return type
  let secs ← div_u64 load rate
  some { ret := ((secs % U32 : Nat) : Int)
         wdt := { wdt with regs := b.regs }
         events := b.trace }

/-- Function `wdt_config`: the register sequence shared by start (`ping = false`)
and keepalive (`ping = true`). -/
def wdt_config (wdt : sp805_wdt) (ping : Bool) : Outcome :=
  -- lines 135-142: `en` is the result of the clock enable and the clock afterwards
  let en := if !ping then clk_prepare_enable wdt.clk else (0, wdt.clk)
  if !ping && en.1 ≠ 0 then
    { ret := en.1
      wdt := { wdt with clk := en.2 }
      events := [Event.dev_err "clock enable fail"] }
  else
    -- lines 146-157
    let b : Bus := { regs := wdt.regs, trace := [] }
    let b := writel_relaxed UNLOCK WDTLOCK b
    let b := writel_relaxed wdt.load_val WDTLOAD b
    let b := writel_relaxed INT_MASK WDTINTCLR b
    let b := if !ping then writel_relaxed (INT_ENABLE ||| RESET_ENABLE) WDTCONTROL b else b
    let b := writel_relaxed LOCK WDTLOCK b
    let b := (readl_relaxed WDTLOCK b).2
    -- lines 159-167
    let status := wdt.ris_status
    { ret := 0
      wdt := { wdt with clk := en.2, regs := b.regs, ris_status := false }
      events := b.trace ++
        (if status then [Event.pr_crit "Watchdog reboot averted\n"] else []) }

/-- Function `wdt_ping`. -/
def wdt_ping (wdt : sp805_wdt) : Outcome :=
  wdt_config wdt true

/-- Function `wdt_enable`: enables the watchdog timer's reset. -/
def wdt_enable (wdt : sp805_wdt) : Outcome :=
  wdt_config wdt false

/-- Function `wdt_disable`: disables the watchdog timer's reset. -/
def wdt_disable (wdt : sp805_wdt) : Outcome :=
  let b : Bus := { regs := wdt.regs, trace := [] }
  let b := writel_relaxed UNLOCK WDTLOCK b
  let b := writel_relaxed 0 WDTCONTROL b
  let b := writel_relaxed LOCK WDTLOCK b
  let b := (readl_relaxed WDTLOCK b).2
  { ret := 0
    wdt := { wdt with regs := b.regs, clk := clk_disable_unprepare wdt.clk }
    events := b.trace }

/-- Function `sp805_wdt_interrupt`: the handler of the first-stage interrupt. -/
def sp805_wdt_interrupt (_irq : Int) (wdt : sp805_wdt) : Outcome :=
  let b : Bus := { regs := wdt.regs, trace := [] }
  let (ris, b) := readl_relaxed WDTRIS b
  let status : Bool := ris &&& INT_MASK != 0
  if status && (wdt.ris_status != status) then
    { ret := IRQ_HANDLED
      wdt := { wdt with regs := b.regs, ris_status := true }
      events := b.trace ++ [Event.pr_crit "Watchdog is about to reboot system\n"] }
  else if !status then
    { ret := IRQ_HANDLED
      wdt := { wdt with regs := b.regs, ris_status := false }
      events := b.trace ++ [Event.pr_crit "Watchdog reboot averted\n"] }
  else
    { ret := IRQ_HANDLED
      wdt := { wdt with regs := b.regs }
      events := b.trace }

/-! ## Attachment -/

/-- Modelled from the spec: the error-pointer test `IS_ERR` of `linux/err.h`
(not part of the sources), by which a collaborator reports a failed
acquisition: a pointer, read as a signed machine word, in the last `MAX_ERRNO`
addresses encodes an error. -/
def IS_ERR (ptr : Int) : Bool := decide (-MAX_ERRNO ≤ ptr ∧ ptr < 0)

/-- Modelled from the spec: `PTR_ERR` of `linux/err.h` (not part of the
sources), the error code an error pointer encodes. -/
def PTR_ERR (ptr : Int) : Int := ptr

/-- What the collaborators hand to `sp805_wdt_probe`: whether `devm_kzalloc`
succeeds, the pointer `devm_ioremap_resource` returns and the register block
behind it, the pointer `devm_clk_get` returns and the clock behind it, the
module parameter `nowayout`, and the results of `watchdog_register_device`,
`irq_of_parse_and_map` and `request_irq`. -/
structure probe_env where
  kzalloc_ok : Bool
  base : Int
  regs : Regs
  clk_ptr : Int
  clk : clk
  nowayout : Bool
  register_ret : Int
  irq : Int
  request_irq_ret : Int
  deriving DecidableEq, Repr

/-- What `sp805_wdt_probe` leaves behind: its return value, the device as
registered with the watchdog framework (if registration was reached and
succeeded), whether the interrupt handler is bound, and the log. -/
structure probe_outcome where
  ret : Int
  registered : Option sp805_wdt
  irq_bound : Bool
  events : List Event
  deriving DecidableEq, Repr

/-- Function `sp805_wdt_probe`: attaches the driver to a device. -/
def sp805_wdt_probe (env : probe_env) : Option probe_outcome :=
  if !env.kzalloc_ok then
    let ret := -ENOMEM
    some { ret := ret, registered := none, irq_bound := false
           events := [Event.dev_err "Probe Failed!!!\n"] }
  else
    let wdt : sp805_wdt :=
      { wdd := { timeout := 0, active := false, nowayout := false }
        regs := env.regs, clk := env.clk
        load_val := 0, irq := 0, ris_status := false }
    if IS_ERR env.base then
      some { ret := PTR_ERR env.base, registered := none, irq_bound := false, events := [] }
    else if IS_ERR env.clk_ptr then
      let ret := PTR_ERR env.clk_ptr
      some { ret := ret, registered := none, irq_bound := false
             events := [Event.dev_warn "Clock not found\n",
                        Event.dev_err "Probe Failed!!!\n"] }
    else do
      let wdt := { wdt with wdd := { wdt.wdd with nowayout := env.nowayout } }
      let o ← wdt_setload wdt DEFAULT_TIMEOUT
      let wdt := o.wdt
      let ret := env.register_ret
      if ret ≠ 0 then
        some { ret := ret, registered := none, irq_bound := false
               events := [Event.dev_err "watchdog_register_device() failed: %d\n",
                          Event.dev_err "Probe Failed!!!\n"] }
      else
        let irq := env.irq
        if irq ≤ 0 then
          some { ret := ret, registered := some wdt, irq_bound := false
                 events := [Event.dev_err "sp805 failed to get IRQ\n",
                            Event.dev_err "Probe Failed!!!\n"] }
        else
          let wdt := { wdt with irq := irq }
          let wdt := { wdt with ris_status := false }
          let ret := env.request_irq_ret
          if ret ≠ 0 then
            some { ret := ret, registered := some wdt, irq_bound := false
                   events := [Event.dev_err "sp805 IRQ %d request fail\n",
                              Event.dev_err "Probe Failed!!!\n"] }
          else
            some { ret := 0, registered := some wdt, irq_bound := true
                   events := [Event.dev_info "registration successful\n"] }

/-! ## Power management -/

/-- Function `watchdog_active`: the framework's `WDOG_ACTIVE` status bit. -/
def watchdog_active (wdd : watchdog_device) : Bool := wdd.active

/-- Function `sp805_wdt_suspend`. -/
def sp805_wdt_suspend (wdt : sp805_wdt) : Outcome :=
  if watchdog_active wdt.wdd then wdt_disable wdt
  else { ret := 0, wdt := wdt, events := [] }

/-- Function `sp805_wdt_resume`. -/
def sp805_wdt_resume (wdt : sp805_wdt) : Outcome :=
  if watchdog_active wdt.wdd then wdt_enable wdt
  else { ret := 0, wdt := wdt, events := [] }

/-! ## Call sequences -/

/-- One thing that can happen to an attached device: a call of one of the
operations of `wdt_ops`, the interrupt handler, or a change made by a
collaborator (the hardware moving the countdown and the raw interrupt status,
the clock changing its rate or its answer to enable requests). -/
inductive Call where
  | set_timeout (timeout : Nat)
  | start
  | stop
  | ping
  | get_timeleft
  | interrupt
  | hw (value ris : Nat)
  | clock (rate : Nat) (enable_ret : Int)
  deriving DecidableEq, Repr

/-- The device structure after one call; `none` when the call has no outcome. -/
def step (wdt : sp805_wdt) : Call → Option sp805_wdt
  | Call.set_timeout timeout => (wdt_setload wdt timeout).map Outcome.wdt
  | Call.start => some (wdt_enable wdt).wdt
  | Call.stop => some (wdt_disable wdt).wdt
  | Call.ping => some (wdt_ping wdt).wdt
  | Call.get_timeleft => (wdt_timeleft wdt).map Outcome.wdt
  | Call.interrupt => some (sp805_wdt_interrupt wdt.irq wdt).wdt
  | Call.hw value ris => some { wdt with regs := { wdt.regs with value := value, ris := ris } }
  | Call.clock rate enable_ret =>
      some { wdt with clk := { wdt.clk with rate := rate, enable_ret := enable_ret } }

/-- The device structure after a sequence of calls. -/
def run (wdt : sp805_wdt) : List Call → Option sp805_wdt
  | [] => some wdt
  | c :: cs => (step wdt c).bind fun w => run w cs

/-! ## Observations on states and event lists -/

/-- The watchdog is armed: the control register has both the interrupt-enable
and the reset-enable bit set, so the countdown runs and its second expiry
resets the system. -/
def armed (r : Regs) : Bool :=
  r.control &&& (INT_ENABLE ||| RESET_ENABLE) == (INT_ENABLE ||| RESET_ENABLE)

/-- The register writes among `evs` that go to one of the offsets `offs`, in
program order. -/
def writes_to (offs : List Nat) (evs : List Event) : List Event :=
  evs.filter fun e =>
    match e with
    | Event.writel _ off => decide (off ∈ offs)
    | _ => false

/-- The watchdog is stopped: the control register is cleared, the register
block is locked again, and the clock has been released. -/
def stopped (wdt : sp805_wdt) : Bool :=
  wdt.regs.control == 0 && wdt.regs.lock == LOCK && wdt.clk.enable_count == 0

/-- The log line of the interrupt handler announcing the reset. -/
def about_to_reboot : Event := Event.pr_crit "Watchdog is about to reboot system\n"

/-- The hardware presents the value `ris` in the raw interrupt status register. -/
def hw_status (wdt : sp805_wdt) (ris : Nat) : sp805_wdt :=
  { wdt with regs := { wdt.regs with ris := ris } }

/-- Consecutive invocations of the interrupt handler with nothing in between
but the hardware presenting the raw interrupt status: one outcome per element
of the list, which gives the value of the raw status register at each
invocation. -/
def interrupts (wdt : sp805_wdt) : List Nat → List Outcome
  | [] => []
  | ris :: rest =>
      (sp805_wdt_interrupt wdt.irq (hw_status wdt ris)) ::
        interrupts (sp805_wdt_interrupt wdt.irq (hw_status wdt ris)).wdt rest

/-- The device structure after a list of outcomes, starting from `wdt`. -/
def last_wdt (wdt : sp805_wdt) : List Outcome → sp805_wdt
  | [] => wdt
  | o :: rest => last_wdt o.wdt rest

/-- All events of a list of outcomes, in program order. -/
def all_events : List Outcome → List Event
  | [] => []
  | o :: rest => o.events ++ all_events rest

/-- The event is a register access. -/
def is_mmio : Event → Bool
  | Event.writel _ _ => true
  | Event.readl _ => true
  | _ => false

/-- The event is a register write. -/
def is_write : Event → Bool
  | Event.writel _ _ => true
  | _ => false

/-- The register accesses among `evs`, in program order. -/
def mmio (evs : List Event) : List Event := evs.filter is_mmio

/-- The register writes among `evs`, in program order. -/
def writes (evs : List Event) : List Event := evs.filter is_write

/-- The rest of an unlocked window: writes to the load, interrupt-clear and
control registers only, then the write of `LOCK` to the lock register, then
the read of the lock register, and nothing after it. -/
def window_body : List Event → Bool
  | [] => false
  | Event.writel val off :: es =>
      if off = WDTLOCK then val == LOCK && es == [Event.readl WDTLOCK]
      else (off == WDTLOAD || off == WDTINTCLR || off == WDTCONTROL) && window_body es
  | _ :: _ => false

/-- The lock protocol on the register accesses of one operation: either there
is no access at all, or the accesses are one unlocked window, opened by the
write of `UNLOCK` to the lock register and closed as `window_body` says. -/
def lock_protocol (evs : List Event) : Bool :=
  match mmio evs with
  | [] => true
  | Event.writel val off :: es => val == UNLOCK && off == WDTLOCK && window_body es
  | _ :: _ => false

/-- One thing that can happen while the watchdog is armed and no timeout change
is pending: a keepalive, the interrupt handler, a time-left query, the
hardware moving the countdown to `value` (at most the value last written to
the load register) with raw status `ris`, or a timeout change followed at once
by the keepalive that applies it. -/
inductive ArmedCall where
  | ping
  | interrupt
  | get_timeleft
  | countdown (value ris : Nat)
  | retime (timeout : Nat)
  deriving DecidableEq, Repr

/-- The device structure after one `ArmedCall`; `none` when the call has no
outcome or the countdown step is not admissible. -/
def armed_step (wdt : sp805_wdt) : ArmedCall → Option sp805_wdt
  | ArmedCall.ping => some (wdt_ping wdt).wdt
  | ArmedCall.interrupt => some (sp805_wdt_interrupt wdt.irq wdt).wdt
  | ArmedCall.get_timeleft => (wdt_timeleft wdt).map Outcome.wdt
  | ArmedCall.countdown value ris =>
      if value ≤ wdt.regs.load then
        some { wdt with regs := { wdt.regs with value := value, ris := ris } }
      else none
  | ArmedCall.retime timeout =>
      (wdt_setload wdt timeout).map fun o => (wdt_ping o.wdt).wdt

/-- The device structure after a sequence of `ArmedCall`s. -/
def run_armed (wdt : sp805_wdt) : List ArmedCall → Option sp805_wdt
  | [] => some wdt
  | c :: cs => (armed_step wdt c).bind fun w => run_armed w cs

/-! ## Reference formulas of the specification -/

/-- Clamp an integer to the load register's valid range `[LOAD_MIN, LOAD_MAX]`. -/
def clamp_load (x : Int) : Int :=
  if x < (LOAD_MIN : Int) then (LOAD_MIN : Int)
  else if (LOAD_MAX : Int) < x then (LOAD_MAX : Int) else x

/-- The reload formula in the words of the specification:
`floor(clockRateHz / 2 * timeoutSeconds) - 1` clamped to `[LOAD_MIN, LOAD_MAX]`,
over the rationals. -/
def spec_reload (clockRateHz timeoutSeconds : Nat) : Int :=
  clamp_load (⌊(clockRateHz : ℚ) / 2 * (timeoutSeconds : ℚ)⌋ - 1)

/-- Rounding of a rational to the nearest integer, ties rounding up. -/
def round_half_up (q : ℚ) : Int := ⌊q + 1 / 2⌋

/-- The effective timeout in the words of the specification: the exact
rational `2 * (reload + 1) / clockRateHz` rounded to the nearest whole second. -/
def spec_effective (reload clockRateHz : Nat) : Int :=
  round_half_up (2 * ((reload : ℚ) + 1) / (clockRateHz : ℚ))

/-! ## Example values -/

/-- Example register block: locked, stopped, nothing pending. -/
def demo_regs : Regs :=
  { load := 0, value := 0, control := 0, intclr := 0, ris := 0, mis := 0, lock := LOCK }

/-- Example clock: 1 kHz, disabled, enable requests succeed. -/
def demo_clk : clk := { rate := 1000, enable_count := 0, enable_ret := 0 }

/-- Example device structure: freshly attached at 1 kHz with the default timeout staged. -/
def demo_wdt : sp805_wdt :=
  { wdd := { timeout := 60, active := false, nowayout := false }
    regs := demo_regs, clk := demo_clk, load_val := 29999, irq := 5, ris_status := false }

/-- Example attachment in which every step succeeds. -/
def demo_env : probe_env :=
  { kzalloc_ok := true, base := 4096, regs := demo_regs, clk_ptr := 8192, clk := demo_clk
    nowayout := false, register_ret := 0, irq := 5, request_irq_ret := 0 }

/-- Sequence of calls used as an example: a zero timeout request, start, the
first countdown pass ending, the interrupt, a query, a keepalive, stop. -/
def demo_calls : List Call :=
  [Call.set_timeout 0, Call.start, Call.hw 0 1, Call.interrupt, Call.get_timeleft,
   Call.ping, Call.stop]

/-- The example device after `demo_calls`. -/
def demo_final : sp805_wdt :=
  { wdd := { timeout := 8589935, active := false, nowayout := false }
    regs := { load := 4294967295, value := 4294967295, control := 0, intclr := 1,
              ris := 0, mis := 0, lock := 1 }
    clk := demo_clk, load_val := 4294967295, irq := 5, ris_status := false }

/-- Example device structure whose clock refuses to be enabled (with `-EIO`),
with a warning latched. -/
def demo_wdt_noclk : sp805_wdt :=
  { demo_wdt with clk := { demo_clk with enable_ret := -5 }, ris_status := true }

/-- The example device armed by a successful start, with the framework's
`active` flag set. -/
def demo_armed : sp805_wdt :=
  { wdd := { timeout := 60, active := true, nowayout := false }
    regs := { load := 29999, value := 29999, control := 3, intclr := 1,
              ris := 0, mis := 0, lock := 1 }
    clk := { demo_clk with enable_count := 1 }
    load_val := 29999, irq := 5, ris_status := false }

/-- Sequence of calls on an armed device used as an example. -/
def demo_armed_calls : List ArmedCall :=
  [ArmedCall.countdown 100 0, ArmedCall.retime 10, ArmedCall.interrupt, ArmedCall.ping,
   ArmedCall.get_timeleft, ArmedCall.countdown 0 1]

/-- The example device after a start and `demo_armed_calls`. -/
def demo_armed_final : sp805_wdt :=
  { wdd := { timeout := 10, active := false, nowayout := false }
    regs := { load := 4999, value := 0, control := 3, intclr := 1, ris := 1, mis := 0, lock := 1 }
    clk := { demo_clk with enable_count := 1 }
    load_val := 4999, irq := 5, ris_status := false }

/-- Example device structure on a clock of `rate` Hz. -/
def demo_wdt_at (rate : Nat) : sp805_wdt :=
  { demo_wdt with clk := { demo_clk with rate := rate } }

/-! ## Names for the values staged by `wdt_setload` -/

/-- The value of `load` at the end of lines 96-99 of `wdt_setload`, for the
clock rate `rate` and the requested `timeout`. -/
def reload_of (rate timeout : Nat) : Nat :=
  let load := (rate % U64 / 2 * (timeout % U32) % U64 + U64 - 1) % U64
  let load := if load > LOAD_MAX then LOAD_MAX else load
  if load < LOAD_MIN then LOAD_MIN else load

/-- The value `wdt_setload` stores in `wdd->timeout` at line 104, for the clock
rate `rate` and the clamped `load`. -/
def seconds_of (rate load : Nat) : Nat :=
  (((load + 1) * 2 % U64 + rate / 2) % U64) % U64 / (rate % U32) % U32

/-- The staged values fit together and the hardware is programmed with them:
`wdd->timeout` is what `wdt_setload` computes from `load_val` at the current
clock rate, which is at least 3 Hz and below `2^32` Hz; the load register
holds `load_val`; and the countdown register does not exceed the load
register. -/
def in_step (wdt : sp805_wdt) : Prop :=
  (3 ≤ clk_get_rate wdt.clk ∧ clk_get_rate wdt.clk < U32) ∧ wdt.load_val ≤ LOAD_MAX ∧
  wdt.wdd.timeout = seconds_of (clk_get_rate wdt.clk) wdt.load_val ∧
  wdt.regs.load = wdt.load_val ∧ wdt.regs.value ≤ wdt.regs.load

/-! ## Characterisations of the entry points -/

theorem wdt_config_ping_eq (wdt : sp805_wdt) :
    wdt_config wdt true =
      { ret := 0
        wdt := { wdt with
          regs := { wdt.regs with load := wdt.load_val, value := wdt.load_val,
                                  intclr := INT_MASK, ris := 0, mis := 0, lock := LOCK }
          ris_status := false }
        events := [Event.writel UNLOCK WDTLOCK, Event.writel wdt.load_val WDTLOAD,
                   Event.writel INT_MASK WDTINTCLR, Event.writel LOCK WDTLOCK,
                   Event.readl WDTLOCK] ++
          (if wdt.ris_status then [Event.pr_crit "Watchdog reboot averted\n"] else []) } := by
  simp [wdt_config, writel_relaxed, readl_relaxed, Regs.store, WDTLOCK, WDTLOAD, WDTINTCLR,
    WDTCONTROL]

theorem wdt_config_start_eq (wdt : sp805_wdt) (h : wdt.clk.enable_ret = 0) :
    wdt_config wdt false =
      { ret := 0
        wdt := { wdt with
          clk := { wdt.clk with enable_count := wdt.clk.enable_count + 1 }
          regs := { wdt.regs with load := wdt.load_val, value := wdt.load_val,
                                  control := INT_ENABLE ||| RESET_ENABLE,
                                  intclr := INT_MASK, ris := 0, mis := 0, lock := LOCK }
          ris_status := false }
        events := [Event.writel UNLOCK WDTLOCK, Event.writel wdt.load_val WDTLOAD,
                   Event.writel INT_MASK WDTINTCLR,
                   Event.writel (INT_ENABLE ||| RESET_ENABLE) WDTCONTROL,
                   Event.writel LOCK WDTLOCK, Event.readl WDTLOCK] ++
          (if wdt.ris_status then [Event.pr_crit "Watchdog reboot averted\n"] else []) } := by
  simp [wdt_config, clk_prepare_enable, h, writel_relaxed, readl_relaxed, Regs.store, WDTLOCK,
    WDTLOAD, WDTINTCLR, WDTCONTROL]

theorem wdt_config_start_fail_eq (wdt : sp805_wdt) (h : wdt.clk.enable_ret ≠ 0) :
    wdt_config wdt false =
      { ret := wdt.clk.enable_ret, wdt := wdt
        events := [Event.dev_err "clock enable fail"] } := by
  simp [wdt_config, clk_prepare_enable, h]

theorem wdt_disable_eq (wdt : sp805_wdt) :
    wdt_disable wdt =
      { ret := 0
        wdt := { wdt with regs := { wdt.regs with control := 0, lock := LOCK }
                          clk := { wdt.clk with enable_count := wdt.clk.enable_count - 1 } }
        events := [Event.writel UNLOCK WDTLOCK, Event.writel 0 WDTCONTROL,
                   Event.writel LOCK WDTLOCK, Event.readl WDTLOCK] } := by
  simp [wdt_disable, clk_disable_unprepare, writel_relaxed, readl_relaxed, Regs.store, WDTLOCK,
    WDTLOAD, WDTINTCLR, WDTCONTROL]

theorem wdt_config_load_val (wdt : sp805_wdt) (ping : Bool) :
    (wdt_config wdt ping).wdt.load_val = wdt.load_val := by
  cases ping
  · by_cases h : wdt.clk.enable_ret = 0
    · rw [wdt_config_start_eq wdt h]
    · rw [wdt_config_start_fail_eq wdt h]
  · rw [wdt_config_ping_eq]

theorem wdt_disable_load_val (wdt : sp805_wdt) :
    (wdt_disable wdt).wdt.load_val = wdt.load_val := by
  rw [wdt_disable_eq]

theorem wdt_timeleft_load_val {wdt : sp805_wdt} {o : Outcome}
    (h : wdt_timeleft wdt = some o) : o.wdt.load_val = wdt.load_val := by
  simp only [wdt_timeleft, bind, Option.bind] at h
  split at h
  · cases h
  · cases h
    rfl

theorem sp805_wdt_interrupt_load_val (irq : Int) (wdt : sp805_wdt) :
    (sp805_wdt_interrupt irq wdt).wdt.load_val = wdt.load_val := by
  simp only [sp805_wdt_interrupt]
  split
  · rfl
  · split <;> rfl

/-! ## The staged reload value stays in range -/

theorem wdt_setload_some (wdt : sp805_wdt) (timeout : Nat) (h : clk_get_rate wdt.clk ≠ 0) :
    ∃ o, wdt_setload wdt timeout = some o ∧ o.ret = 0 ∧
      LOAD_MIN ≤ o.wdt.load_val ∧ o.wdt.load_val ≤ LOAD_MAX := by
  simp only [wdt_setload, div_u64, h, bind, Option.bind, if_false]
  simp
  refine ⟨?_, ?_⟩
  · simp only [LOAD_MIN, LOAD_MAX, U32, U64]
    split_ifs <;> omega
  · simp only [LOAD_MIN, LOAD_MAX, U32, U64]
    split_ifs <;> omega

theorem wdt_setload_none (wdt : sp805_wdt) (timeout : Nat) (h : clk_get_rate wdt.clk = 0) :
    wdt_setload wdt timeout = none := by
  simp [wdt_setload, div_u64, h, bind, Option.bind]

theorem wdt_setload_bounds {wdt : sp805_wdt} {timeout : Nat} {o : Outcome}
    (h : wdt_setload wdt timeout = some o) :
    LOAD_MIN ≤ o.wdt.load_val ∧ o.wdt.load_val ≤ LOAD_MAX := by
  by_cases hr : clk_get_rate wdt.clk = 0
  · rw [wdt_setload_none wdt timeout hr] at h
    cases h
  · obtain ⟨o', ho', -, hb⟩ := wdt_setload_some wdt timeout hr
    rw [ho'] at h
    cases h
    exact hb

theorem step_load_val {w w' : sp805_wdt} {c : Call} (h : step w c = some w')
    (hw : LOAD_MIN ≤ w.load_val ∧ w.load_val ≤ LOAD_MAX) :
    LOAD_MIN ≤ w'.load_val ∧ w'.load_val ≤ LOAD_MAX := by
  cases c with
  | set_timeout t =>
    simp only [step, Option.map_eq_some'] at h
    obtain ⟨o, ho, rfl⟩ := h
    exact wdt_setload_bounds ho
  | start =>
    simp only [step, Option.some.injEq] at h
    subst h
    simpa [wdt_enable, wdt_config_load_val] using hw
  | stop =>
    simp only [step, Option.some.injEq] at h
    subst h
    simpa [wdt_disable_load_val] using hw
  | ping =>
    simp only [step, Option.some.injEq] at h
    subst h
    simpa [wdt_ping, wdt_config_load_val] using hw
  | get_timeleft =>
    simp only [step, Option.map_eq_some'] at h
    obtain ⟨o, ho, rfl⟩ := h
    rw [wdt_timeleft_load_val ho]
    exact hw
  | interrupt =>
    simp only [step, Option.some.injEq] at h
    subst h
    simpa [sp805_wdt_interrupt_load_val] using hw
  | hw v r =>
    simp only [step, Option.some.injEq] at h
    subst h
    exact hw
  | clock r e =>
    simp only [step, Option.some.injEq] at h
    subst h
    exact hw

theorem run_load_val {calls : List Call} : ∀ {w w' : sp805_wdt}, run w calls = some w' →
    (LOAD_MIN ≤ w.load_val ∧ w.load_val ≤ LOAD_MAX) →
    LOAD_MIN ≤ w'.load_val ∧ w'.load_val ≤ LOAD_MAX := by
  induction calls with
  | nil =>
    intro w w' h hw
    simp only [run, Option.some.injEq] at h
    subst h
    exact hw
  | cons c cs ih =>
    intro w w' h hw
    simp only [run, Option.bind_eq_some] at h
    obtain ⟨w1, h1, h2⟩ := h
    exact ih h2 (step_load_val h1 hw)

theorem probe_registered_load_val {env : probe_env} {p : probe_outcome} {s0 : sp805_wdt}
    (hp : sp805_wdt_probe env = some p) (hreg : p.registered = some s0) :
    LOAD_MIN ≤ s0.load_val ∧ s0.load_val ≤ LOAD_MAX := by
  unfold sp805_wdt_probe at hp
  split_ifs at hp with h1 h2 h3
  · cases hp; cases hreg
  · cases hp; cases hreg
  · cases hp; cases hreg
  · simp only [bind, Option.bind] at hp
    split at hp
    · cases hp
    · rename_i o ho
      have hb := wdt_setload_bounds ho
      split_ifs at hp <;> cases hp <;> cases hreg <;> exact hb

/-! ## Arithmetic of `wdt_setload` -/

theorem clk_get_rate_lt (c : clk) : clk_get_rate c < U64 :=
  Nat.mod_lt _ (by decide)

theorem wdt_setload_eq (wdt : sp805_wdt) (timeout : Nat) (h : clk_get_rate wdt.clk ≠ 0) :
    wdt_setload wdt timeout =
      some { ret := 0
             wdt := { wdt with
               load_val := reload_of (clk_get_rate wdt.clk) timeout % U32
               wdd := { wdt.wdd with
                 timeout := seconds_of (clk_get_rate wdt.clk)
                   (reload_of (clk_get_rate wdt.clk) timeout) } }
             events := [] } := by
  have h2 : 2 % U32 = 2 := by decide
  simp only [wdt_setload, div_u64, h, bind, Option.bind, if_false, reload_of, seconds_of, h2]
  simp

theorem reload_of_bounds (rate timeout : Nat) :
    LOAD_MIN ≤ reload_of rate timeout ∧ reload_of rate timeout ≤ LOAD_MAX := by
  simp only [reload_of, LOAD_MIN, LOAD_MAX, U32, U64]
  split_ifs <;> omega

theorem reload_of_mod (rate timeout : Nat) :
    reload_of rate timeout % U32 = reload_of rate timeout := by
  have h := (reload_of_bounds rate timeout).2
  apply Nat.mod_eq_of_lt
  simp only [LOAD_MAX, U32] at *
  omega


theorem reload_of_eq (rate t : Nat) (hr : rate < U64) (ht : t < U32)
    (hp1 : 1 ≤ rate / 2 * t) (hp : rate / 2 * t < U64) :
    (reload_of rate t : Int) = clamp_load (((rate / 2 * t : Nat) : Int) - 1) := by
  have e1 : rate % U64 = rate := Nat.mod_eq_of_lt hr
  have e2 : t % U32 = t := Nat.mod_eq_of_lt ht
  simp only [reload_of, e1, e2]
  generalize rate / 2 * t = p at *
  simp only [clamp_load, LOAD_MIN, LOAD_MAX, U64] at *
  split_ifs <;> omega

theorem spec_reload_eq (rate t : Nat) :
    spec_reload rate t = clamp_load (((rate * t / 2 : Nat) : Int) - 1) := by
  have h : (rate : ℚ) / 2 * (t : ℚ) = ((rate * t : Nat) : ℚ) / ((2 : Nat) : ℚ) := by
    push_cast
    ring
  rw [spec_reload, h, Rat.floor_natCast_div_natCast]
  rfl

theorem spec_effective_eq (load rate : Nat) (hr : rate ≠ 0) :
    spec_effective load rate = (((load + 1) * 2 + rate / 2) / rate : Nat) := by
  have hq : (rate : ℚ) ≠ 0 := by exact_mod_cast hr
  have h : 2 * ((load : ℚ) + 1) / (rate : ℚ) + 1 / 2 =
      ((((load + 1) * 2) * 2 + rate : Nat) : ℚ) / ((2 * rate : Nat) : ℚ) := by
    push_cast
    field_simp
    ring
  rw [spec_effective, round_half_up, h, Rat.floor_natCast_div_natCast]
  have h2 : ((load + 1) * 2 * 2 + rate) / (2 * rate) = ((load + 1) * 2 + rate / 2) / rate := by
    rw [← Nat.div_div_eq_div_mul]
    congr 1
    omega
  rw [← h2]
  rfl

theorem seconds_of_eq (rate load : Nat) (hr : rate < U32) (hl : load ≤ LOAD_MAX) :
    seconds_of rate load = ((load + 1) * 2 + rate / 2) / rate % U32 := by
  have e1 : (load + 1) * 2 % U64 = (load + 1) * 2 :=
    Nat.mod_eq_of_lt (by simp only [LOAD_MAX, U64] at *; omega)
  have e2 : ((load + 1) * 2 + rate / 2) % U64 = (load + 1) * 2 + rate / 2 :=
    Nat.mod_eq_of_lt (by simp only [LOAD_MAX, U32, U64] at *; omega)
  have e3 : rate % U32 = rate := Nat.mod_eq_of_lt hr
  simp only [seconds_of, e1, e2, e3]

theorem seconds_of_lt (rate load : Nat) (hr : rate < U32) (h3 : 3 ≤ rate) (hl : load ≤ LOAD_MAX) :
    seconds_of rate load = ((load + 1) * 2 + rate / 2) / rate := by
  rw [seconds_of_eq rate load hr hl]
  apply Nat.mod_eq_of_lt
  rw [Nat.div_lt_iff_lt_mul (by omega)]
  simp only [LOAD_MAX, U32, U64] at *
  omega

theorem half_mul_lt (rate t : Nat) (hr : rate < U32) (ht : t < U32) : rate / 2 * t < U64 := by
  have h1 : rate / 2 < 2 ^ 31 := by
    simp only [U32] at hr
    omega
  have h2 : t < 2 ^ 32 := ht
  have h3 := Nat.mul_lt_mul'' h1 h2
  simp only [U64]
  omega

theorem reload_of_wrap (rate t : Nat) (hr : rate < U64) (ht : t < U32) (hp : rate / 2 * t < U64)
    (h : rate / 2 * t = 0 ∨ U32 < rate / 2 * t) : reload_of rate t = LOAD_MAX := by
  have e1 : rate % U64 = rate := Nat.mod_eq_of_lt hr
  have e2 : t % U32 = t := Nat.mod_eq_of_lt ht
  simp only [reload_of, e1, e2]
  generalize rate / 2 * t = p at *
  simp only [LOAD_MIN, LOAD_MAX, U64, U32] at *
  split_ifs <;> omega

theorem reload_of_mid (rate t : Nat) (hr : rate < U64) (ht : t < U32)
    (h2 : 2 ≤ rate / 2 * t) (h3 : rate / 2 * t ≤ U32) : reload_of rate t = rate / 2 * t - 1 := by
  have e1 : rate % U64 = rate := Nat.mod_eq_of_lt hr
  have e2 : t % U32 = t := Nat.mod_eq_of_lt ht
  simp only [reload_of, e1, e2]
  generalize rate / 2 * t = p at *
  simp only [LOAD_MIN, LOAD_MAX, U64, U32] at *
  split_ifs <;> omega

theorem seconds_of_lt_U32 (rate load : Nat) : seconds_of rate load < U32 :=
  Nat.mod_lt _ (by decide)

theorem reload_of_mod_timeout (rate timeout : Nat) :
    reload_of rate (timeout % U32) = reload_of rate timeout := by
  simp only [reload_of, Nat.mod_mod]

theorem seconds_of_exact (rate t : Nat) (h2 : 2 ≤ rate) (hr : rate < U32)
    (ht : t < U32) (hp2 : 2 ≤ rate / 2 * t) (hp3 : rate / 2 * t ≤ U32)
    (hc : rate % 2 = 0 ∨ t ≤ rate / 2) :
    seconds_of rate (reload_of rate t) = t := by
  have hr64 : rate < U64 := by
    simp only [U32, U64] at *
    omega
  have hl : rate / 2 * t - 1 ≤ LOAD_MAX := by
    simp only [U32, LOAD_MAX] at *
    omega
  rw [reload_of_mid rate t hr64 ht hp2 hp3, seconds_of_eq _ _ hr hl]
  have hdm : rate = 2 * (rate / 2) + rate % 2 := (Nat.div_add_mod rate 2).symm
  have hrt : rate * t = 2 * (rate / 2 * t) + rate % 2 * t := by
    conv_lhs => rw [hdm]
    ring
  have e : (rate / 2 * t - 1 + 1) * 2 + rate / 2 = (rate / 2 - rate % 2 * t) + rate * t := by
    rcases Nat.mod_two_eq_zero_or_one rate with h0 | h1
    · rw [h0] at hrt ⊢
      omega
    · rw [h1] at hrt ⊢
      have htle : t ≤ rate / 2 := by omega
      omega
  rw [e, Nat.add_mul_div_left _ _ (by omega : 0 < rate), Nat.div_eq_of_lt (by omega),
    Nat.zero_add]
  exact Nat.mod_eq_of_lt ht

theorem seconds_of_max_le (rate : Nat) (hr : 2 ^ 17 ≤ rate) (hr32 : rate < U32) :
    seconds_of rate LOAD_MAX ≤ 2 ^ 16 := by
  rw [seconds_of_lt rate LOAD_MAX hr32 (by omega) (Nat.le_refl _)]
  have h2 : ((LOAD_MAX + 1) * 2 + rate / 2) / rate < 2 ^ 16 + 1 := by
    rw [Nat.div_lt_iff_lt_mul (by omega)]
    simp only [LOAD_MAX]
    omega
  omega

/-- On a clock rate below `2^32` that is even or at least `2^17`, the effective timeout computed
for any request is reproduced when it is requested again. -/
theorem seconds_of_fixed (rate t : Nat) (h2 : 2 ≤ rate) (hr : rate < U32)
    (hc : rate % 2 = 0 ∨ 2 ^ 17 ≤ rate) (ht : t < U32) :
    seconds_of rate (reload_of rate (seconds_of rate (reload_of rate t))) =
      seconds_of rate (reload_of rate t) := by
  have hr64 : rate < U64 := by
    simp only [U32, U64] at *
    omega
  -- the only rate with `rate / 2 = 1` that is admitted is 2
  have hone : rate / 2 = 1 → rate = 2 := by
    intro h
    omega
  -- the value computed from a clamped-to-maximum reload is reproduced
  have hmax : seconds_of rate (reload_of rate (seconds_of rate LOAD_MAX)) =
      seconds_of rate LOAD_MAX := by
    have hE := seconds_of_lt_U32 rate LOAD_MAX
    have hpE := half_mul_lt rate _ hr hE
    by_cases c1 : rate / 2 * seconds_of rate LOAD_MAX = 0 ∨
        U32 < rate / 2 * seconds_of rate LOAD_MAX
    · rw [reload_of_wrap rate _ hr64 hE hpE c1]
    · by_cases c2 : rate / 2 * seconds_of rate LOAD_MAX = 1
      · exfalso
        have hrate : rate = 2 := hone (Nat.eq_one_of_mul_eq_one_right c2)
        subst hrate
        revert c2
        decide
      · refine seconds_of_exact rate _ h2 hr hE (by omega) (by omega) ?_
        rcases hc with hc | hc
        · exact Or.inl hc
        · have := seconds_of_max_le rate hc hr
          exact Or.inr (by omega)
  have hp := half_mul_lt rate t hr ht
  by_cases c1 : rate / 2 * t = 0 ∨ U32 < rate / 2 * t
  · rw [reload_of_wrap rate t hr64 ht hp c1]
    exact hmax
  · by_cases c2 : rate / 2 * t = 1
    · have hrate : rate = 2 := hone (Nat.eq_one_of_mul_eq_one_right c2)
      have htt : t = 1 := Nat.eq_one_of_mul_eq_one_left c2
      subst hrate
      subst htt
      decide
    · have hexact : seconds_of rate (reload_of rate t) = t := by
        refine seconds_of_exact rate t h2 hr ht (by omega) (by omega) ?_
        rcases hc with hc | hc
        · exact Or.inl hc
        · right
          by_contra hlt
          have h16 : 2 ^ 16 ≤ rate / 2 := by omega
          have ht16 : 2 ^ 16 + 1 ≤ t := by omega
          have := Nat.mul_le_mul h16 ht16
          simp only [U32] at c1
          omega
      rw [hexact]
      exact hexact

/-! ## Time left and the interrupt handler -/

theorem and_int_mask (x : Nat) : x % U32 &&& INT_MASK = x % 2 := by
  have h : INT_MASK = 1 := by decide
  rw [h, Nat.and_one_is_mod]
  simp only [U32]
  omega

theorem wdt_timeleft_eq (wdt : sp805_wdt) (h : clk_get_rate wdt.clk ≠ 0) :
    wdt_timeleft wdt =
      some { ret := (((if wdt.regs.ris % 2 = 0
                       then (wdt.regs.value % U32 + (wdt.load_val + 1) % U32) % U64
                       else wdt.regs.value % U32) % U64 / (clk_get_rate wdt.clk % U32) % U32 : Nat) : Int)
             wdt := wdt
             events := [Event.readl WDTVALUE, Event.readl WDTRIS] } := by
  simp only [wdt_timeleft, readl_relaxed, div_u64, h, bind, Option.bind, if_false, Regs.fetch]
  simp [WDTLOAD, WDTVALUE, WDTCONTROL, WDTRIS, and_int_mask]

theorem wdt_timeleft_none (wdt : sp805_wdt) (h : clk_get_rate wdt.clk = 0) :
    wdt_timeleft wdt = none := by
  simp [wdt_timeleft, readl_relaxed, div_u64, h, bind, Option.bind]


theorem sp805_wdt_interrupt_asserted (irq : Int) (wdt : sp805_wdt) (h : wdt.regs.ris % 2 = 1) :
    sp805_wdt_interrupt irq wdt =
      if wdt.ris_status then
        { ret := IRQ_HANDLED, wdt := wdt, events := [Event.readl WDTRIS] }
      else
        { ret := IRQ_HANDLED, wdt := { wdt with ris_status := true }
          events := [Event.readl WDTRIS, about_to_reboot] } := by
  cases hs : wdt.ris_status <;>
    simp [sp805_wdt_interrupt, readl_relaxed, Regs.fetch, WDTLOAD, WDTVALUE, WDTCONTROL, WDTRIS,
      and_int_mask, h, hs, about_to_reboot]
  cases wdt
  simp_all

theorem sp805_wdt_interrupt_clear (irq : Int) (wdt : sp805_wdt) (h : wdt.regs.ris % 2 = 0) :
    sp805_wdt_interrupt irq wdt =
      { ret := IRQ_HANDLED, wdt := { wdt with ris_status := false }
        events := [Event.readl WDTRIS, Event.pr_crit "Watchdog reboot averted\n"] } := by
  simp [sp805_wdt_interrupt, readl_relaxed, Regs.fetch, WDTLOAD, WDTVALUE, WDTCONTROL, WDTRIS,
    and_int_mask, h]

/-- Once the warning is latched, further invocations that read the status bit as asserted
change nothing and announce nothing. -/
theorem interrupts_latched (rs : List Nat) : ∀ (wdt : sp805_wdt), wdt.ris_status = true →
    (∀ r ∈ rs, r % 2 = 1) →
    (last_wdt wdt (interrupts wdt rs)).ris_status = true ∧
    (all_events (interrupts wdt rs)).count about_to_reboot = 0 ∧
    ∀ o ∈ interrupts wdt rs, o.ret = IRQ_HANDLED := by
  induction rs with
  | nil =>
    intro wdt hs _
    simp [interrupts, last_wdt, all_events, hs]
  | cons r rest ih =>
    intro wdt hs hr
    have hr1 : (hw_status wdt r).regs.ris % 2 = 1 := hr r (List.mem_cons_self _ _)
    have hrest : ∀ x ∈ rest, x % 2 = 1 := fun x hx => hr x (List.mem_cons_of_mem _ hx)
    have hs' : (hw_status wdt r).ris_status = true := hs
    have heq := sp805_wdt_interrupt_asserted wdt.irq (hw_status wdt r) hr1
    rw [hs', if_pos rfl] at heq
    have ih' := ih (hw_status wdt r) hs' hrest
    simp only [interrupts, heq, last_wdt, all_events, List.mem_cons, forall_eq_or_imp]
    refine ⟨ih'.1, ?_, trivial, ih'.2.2⟩
    rw [List.count_append, ih'.2.1]
    decide

/-- Starting with no warning latched, a non-empty burst of invocations that all read the
status bit as asserted latches the warning and announces the reset exactly once. -/
theorem interrupts_edge (r : Nat) (rest : List Nat) (wdt : sp805_wdt)
    (hs : wdt.ris_status = false) (hr : ∀ x ∈ r :: rest, x % 2 = 1) :
    (last_wdt wdt (interrupts wdt (r :: rest))).ris_status = true ∧
    (all_events (interrupts wdt (r :: rest))).count about_to_reboot = 1 ∧
    ∀ o ∈ interrupts wdt (r :: rest), o.ret = IRQ_HANDLED := by
  have hr1 : (hw_status wdt r).regs.ris % 2 = 1 := hr r (List.mem_cons_self _ _)
  have hrest : ∀ x ∈ rest, x % 2 = 1 := fun x hx => hr x (List.mem_cons_of_mem _ hx)
  have hs' : (hw_status wdt r).ris_status = false := hs
  have heq := sp805_wdt_interrupt_asserted wdt.irq (hw_status wdt r) hr1
  rw [hs'] at heq
  simp only [Bool.false_eq_true, if_false] at heq
  have ih' := interrupts_latched rest { hw_status wdt r with ris_status := true } rfl hrest
  simp only [interrupts, heq, last_wdt, all_events, List.mem_cons, forall_eq_or_imp]
  refine ⟨ih'.1, ?_, trivial, ih'.2.2⟩
  rw [List.count_append, ih'.2.1]
  decide

theorem interrupts_length (rs : List Nat) : ∀ (wdt : sp805_wdt),
    (interrupts wdt rs).length = rs.length := by
  induction rs with
  | nil => intro wdt; rfl
  | cons r rest ih =>
    intro wdt
    simp only [interrupts, List.length_cons, ih]

theorem suspend_active (wdt : sp805_wdt) (ha : wdt.wdd.active = true) :
    sp805_wdt_suspend wdt = wdt_disable wdt := by
  simp only [sp805_wdt_suspend, watchdog_active, ha, if_true]

theorem resume_active (wdt : sp805_wdt) (ha : wdt.wdd.active = true) :
    sp805_wdt_resume wdt = wdt_enable wdt := by
  simp only [sp805_wdt_resume, watchdog_active, ha, if_true]

/-! ## Exactness, upper bound and positivity of the effective timeout -/

theorem rate_mul_eq (rate t : Nat) : rate * t = 2 * (rate / 2 * t) + rate % 2 * t := by
  have hdm : rate = 2 * (rate / 2) + rate % 2 := (Nat.div_add_mod rate 2).symm
  conv_lhs => rw [hdm]
  ring

theorem seconds_of_exact_u64 (rate t : Nat) (hr : rate < U32)
    (ht : t < U32) (hp2 : 2 ≤ rate / 2 * t) (hp3 : rate / 2 * t ≤ U32)
    (hc : rate % 2 = 0 ∨ t ≤ rate / 2) :
    seconds_of rate (reload_of rate t) = t := by
  have hr64 : rate < U64 := by
    simp only [U32, U64] at *
    omega
  have hl : rate / 2 * t - 1 ≤ LOAD_MAX := by
    simp only [U32, LOAD_MAX] at *
    omega
  have h2 : 2 ≤ rate := by
    rcases Nat.eq_zero_or_pos (rate / 2) with h0 | h0
    · rw [h0, Nat.zero_mul] at hp2
      omega
    · omega
  rw [reload_of_mid rate t hr64 ht hp2 hp3, seconds_of_eq _ _ hr hl]
  have hrt := rate_mul_eq rate t
  have e : (rate / 2 * t - 1 + 1) * 2 + rate / 2 = (rate / 2 - rate % 2 * t) + rate * t := by
    rcases Nat.mod_two_eq_zero_or_one rate with h0 | h1
    · rw [h0] at hrt ⊢
      omega
    · rw [h1] at hrt ⊢
      have htle : t ≤ rate / 2 := by omega
      omega
  rw [e, Nat.add_mul_div_left _ _ (by omega : 0 < rate), Nat.div_eq_of_lt (by omega),
    Nat.zero_add]
  exact Nat.mod_eq_of_lt ht

theorem reload_of_one (rate t : Nat) (hr : rate < U64) (ht : t < U32)
    (h : rate / 2 * t = 1) : reload_of rate t = LOAD_MIN := by
  have e1 : rate % U64 = rate := Nat.mod_eq_of_lt hr
  have e2 : t % U32 = t := Nat.mod_eq_of_lt ht
  simp only [reload_of, e1, e2, h]
  decide

/-- The staged reload never exceeds the unclamped `(rate / 2) * t - 1`, when the product is at
least 2 and fits in 64 bits. -/
theorem reload_of_succ_le (rate t : Nat) (hr : rate < U64) (ht : t < U32)
    (hp2 : 2 ≤ rate / 2 * t) (hp : rate / 2 * t < U64) :
    reload_of rate t + 1 ≤ rate / 2 * t := by
  by_cases c : rate / 2 * t ≤ U32
  · rw [reload_of_mid rate t hr ht hp2 c]
    omega
  · rw [reload_of_wrap rate t hr ht hp (Or.inr (by omega))]
    simp only [LOAD_MAX, U32] at *
    omega

theorem seconds_of_le (rate t : Nat) (hr : rate < U32) (h4 : 4 ≤ rate) (ht1 : 1 ≤ t)
    (ht : t < U32) (hp : rate / 2 * t < U64) :
    seconds_of rate (reload_of rate t) ≤ t := by
  have hr64 : rate < U64 := by
    simp only [U32, U64] at *
    omega
  have hh : 2 ≤ rate / 2 := by omega
  have hp2 : 2 ≤ rate / 2 * t := by
    calc 2 = 2 * 1 := rfl
      _ ≤ rate / 2 * t := Nat.mul_le_mul hh ht1
  have hle := reload_of_succ_le rate t hr64 ht hp2 hp
  rw [seconds_of_lt rate _ hr (by omega) (reload_of_bounds rate t).2]
  have hrt := rate_mul_eq rate t
  have hlt : (reload_of rate t + 1) * 2 + rate / 2 < (t + 1) * rate := by
    have e : (t + 1) * rate = rate * t + rate := by ring
    rw [e]
    omega
  have := (Nat.div_lt_iff_lt_mul (by omega : 0 < rate)).2 hlt
  omega

theorem seconds_of_pos (rate t : Nat) (h3 : 3 ≤ rate) (hr : rate < U32) (ht : t < U32) :
    0 < seconds_of rate (reload_of rate t) := by
  have hr64 : rate < U64 := by
    simp only [U32, U64] at *
    omega
  have hp := half_mul_lt rate t hr ht
  rw [seconds_of_lt rate _ hr h3 (reload_of_bounds rate t).2]
  apply Nat.div_pos _ (by omega)
  by_cases c1 : rate / 2 * t = 0 ∨ U32 < rate / 2 * t
  · rw [reload_of_wrap rate t hr64 ht hp c1]
    simp only [LOAD_MAX, U32] at *
    omega
  · by_cases c2 : rate / 2 * t = 1
    · rw [reload_of_one rate t hr64 ht c2]
      have hh : rate / 2 = 1 := Nat.eq_one_of_mul_eq_one_right c2
      simp only [LOAD_MIN]
      omega
    · rw [reload_of_mid rate t hr64 ht (by omega) (by omega)]
      have ht1 : 0 < t := by
        rcases Nat.eq_zero_or_pos t with h0 | h0
        · rw [h0, Nat.mul_zero] at c1
          omega
        · exact h0
      have hge : rate / 2 ≤ rate / 2 * t := Nat.le_mul_of_pos_right _ ht1
      omega

/-! ## Time left while armed -/

theorem sp805_wdt_interrupt_frame (irq : Int) (wdt : sp805_wdt) :
    ∃ b, (sp805_wdt_interrupt irq wdt).wdt = { wdt with ris_status := b } := by
  rcases Nat.mod_two_eq_zero_or_one wdt.regs.ris with h | h
  · exact ⟨false, by rw [sp805_wdt_interrupt_clear irq wdt h]⟩
  · rw [sp805_wdt_interrupt_asserted irq wdt h]
    cases hs : wdt.ris_status
    · exact ⟨true, by simp⟩
    · refine ⟨true, ?_⟩
      cases wdt
      simp_all

theorem in_step_ping (wdt : sp805_wdt)
    (h3 : 3 ≤ clk_get_rate wdt.clk ∧ clk_get_rate wdt.clk < U32)
    (hl : wdt.load_val ≤ LOAD_MAX)
    (ht : wdt.wdd.timeout = seconds_of (clk_get_rate wdt.clk) wdt.load_val) :
    in_step (wdt_ping wdt).wdt := by
  rw [wdt_ping, wdt_config_ping_eq]
  exact ⟨h3, hl, ht, rfl, Nat.le_refl _⟩

theorem in_step_start (wdt : sp805_wdt) (hen : wdt.clk.enable_ret = 0)
    (h3 : 3 ≤ clk_get_rate wdt.clk ∧ clk_get_rate wdt.clk < U32)
    (hl : wdt.load_val ≤ LOAD_MAX)
    (ht : wdt.wdd.timeout = seconds_of (clk_get_rate wdt.clk) wdt.load_val) :
    in_step (wdt_enable wdt).wdt := by
  rw [wdt_enable, wdt_config_start_eq wdt hen]
  exact ⟨h3, hl, ht, rfl, Nat.le_refl _⟩

theorem wdt_setload_timed {wdt : sp805_wdt} {timeout : Nat} {o : Outcome}
    (h : wdt_setload wdt timeout = some o) :
    clk_get_rate o.wdt.clk = clk_get_rate wdt.clk ∧ o.wdt.load_val ≤ LOAD_MAX ∧
    o.wdt.wdd.timeout = seconds_of (clk_get_rate o.wdt.clk) o.wdt.load_val := by
  by_cases hr : clk_get_rate wdt.clk = 0
  · rw [wdt_setload_none wdt timeout hr] at h
    cases h
  · rw [wdt_setload_eq wdt timeout hr] at h
    cases h
    refine ⟨rfl, ?_, ?_⟩
    · simp only [reload_of_mod]
      exact (reload_of_bounds _ _).2
    · simp only [reload_of_mod]

theorem armed_step_in_step {w w' : sp805_wdt} {c : ArmedCall} (h : armed_step w c = some w')
    (hw : in_step w) : in_step w' := by
  obtain ⟨h3, hl, ht, hload, hval⟩ := hw
  cases c with
  | ping =>
    simp only [armed_step, Option.some.injEq] at h
    subst h
    exact in_step_ping w h3 hl ht
  | interrupt =>
    simp only [armed_step, Option.some.injEq] at h
    subst h
    obtain ⟨b, hb⟩ := sp805_wdt_interrupt_frame w.irq w
    rw [hb]
    exact ⟨h3, hl, ht, hload, hval⟩
  | get_timeleft =>
    simp only [armed_step, Option.map_eq_some'] at h
    obtain ⟨o, ho, rfl⟩ := h
    rw [wdt_timeleft_eq w (by have := h3.1; omega)] at ho
    cases ho
    exact ⟨h3, hl, ht, hload, hval⟩
  | countdown v r =>
    simp only [armed_step] at h
    split_ifs at h with hv
    cases h
    exact ⟨h3, hl, ht, hload, hv⟩
  | retime t =>
    simp only [armed_step, Option.map_eq_some'] at h
    obtain ⟨o, ho, rfl⟩ := h
    obtain ⟨hrate, hl', ht'⟩ := wdt_setload_timed ho
    exact in_step_ping o.wdt (by rw [hrate]; exact h3) hl' ht'

theorem run_armed_in_step {cs : List ArmedCall} : ∀ {w w' : sp805_wdt},
    run_armed w cs = some w' → in_step w → in_step w' := by
  induction cs with
  | nil =>
    intro w w' h hw
    simp only [run_armed, Option.some.injEq] at h
    subst h
    exact hw
  | cons c cs ih =>
    intro w w' h hw
    simp only [run_armed, Option.bind_eq_some] at h
    obtain ⟨w1, h1, h2⟩ := h
    exact ih h2 (armed_step_in_step h1 hw)

theorem wdt_timeleft_in_step (wdt : sp805_wdt) (hw : in_step wdt) :
    ∃ o, wdt_timeleft wdt = some o ∧ 0 ≤ o.ret ∧ o.ret ≤ 2 * (wdt.wdd.timeout : Int) := by
  obtain ⟨⟨h3, hr⟩, hl, ht, hload, hval⟩ := hw
  refine ⟨_, wdt_timeleft_eq wdt (by omega), Int.ofNat_nonneg _, ?_⟩
  rw [ht, seconds_of_lt _ _ hr h3 hl, Nat.mod_eq_of_lt hr]
  generalize clk_get_rate wdt.clk = R at *
  have hv : wdt.regs.value ≤ wdt.load_val := by omega
  have hnum : (if wdt.regs.ris % 2 = 0
      then (wdt.regs.value % U32 + (wdt.load_val + 1) % U32) % U64
      else wdt.regs.value % U32) % U64 ≤ (wdt.load_val + 1) * 2 + R / 2 := by
    have a1 : wdt.regs.value % U32 ≤ wdt.regs.value := Nat.mod_le _ _
    have a2 : (wdt.load_val + 1) % U32 ≤ wdt.load_val + 1 := Nat.mod_le _ _
    split_ifs
    · calc (wdt.regs.value % U32 + (wdt.load_val + 1) % U32) % U64 % U64
          ≤ (wdt.regs.value % U32 + (wdt.load_val + 1) % U32) % U64 := Nat.mod_le _ _
        _ ≤ wdt.regs.value % U32 + (wdt.load_val + 1) % U32 := Nat.mod_le _ _
        _ ≤ (wdt.load_val + 1) * 2 + R / 2 := by omega
    · calc wdt.regs.value % U32 % U64 ≤ wdt.regs.value % U32 := Nat.mod_le _ _
        _ ≤ (wdt.load_val + 1) * 2 + R / 2 := by omega
  have hdiv := Nat.div_le_div_right (c := R) hnum
  have hmod := Nat.mod_le
    ((if wdt.regs.ris % 2 = 0
      then (wdt.regs.value % U32 + (wdt.load_val + 1) % U32) % U64
      else wdt.regs.value % U32) % U64 / R) U32
  show ((_ : Nat) : Int) ≤ 2 * ((_ : Nat) : Int)
  omega

/-! ## Register accesses of the configuration sequence -/

theorem config_events_protocol (load_val : Nat) (ping : Bool) (log : Bool) :
    lock_protocol ([Event.writel UNLOCK WDTLOCK, Event.writel load_val WDTLOAD,
        Event.writel INT_MASK WDTINTCLR] ++
      (if ping then [] else [Event.writel (INT_ENABLE ||| RESET_ENABLE) WDTCONTROL]) ++
      [Event.writel LOCK WDTLOCK, Event.readl WDTLOCK] ++
      (if log then [Event.pr_crit "Watchdog reboot averted\n"] else [])) = true ∧
    (writes ([Event.writel UNLOCK WDTLOCK, Event.writel load_val WDTLOAD,
        Event.writel INT_MASK WDTINTCLR] ++
      (if ping then [] else [Event.writel (INT_ENABLE ||| RESET_ENABLE) WDTCONTROL]) ++
      [Event.writel LOCK WDTLOCK, Event.readl WDTLOCK] ++
      (if log then [Event.pr_crit "Watchdog reboot averted\n"] else []))).getLast? =
        some (Event.writel LOCK WDTLOCK) ∧
    (mmio ([Event.writel UNLOCK WDTLOCK, Event.writel load_val WDTLOAD,
        Event.writel INT_MASK WDTINTCLR] ++
      (if ping then [] else [Event.writel (INT_ENABLE ||| RESET_ENABLE) WDTCONTROL]) ++
      [Event.writel LOCK WDTLOCK, Event.readl WDTLOCK] ++
      (if log then [Event.pr_crit "Watchdog reboot averted\n"] else []))).getLast? =
        some (Event.readl WDTLOCK) := by
  cases ping <;> cases log <;>
    simp [lock_protocol, mmio, is_mmio, writes, is_write, window_body, WDTLOCK, WDTLOAD,
      WDTINTCLR, WDTCONTROL]

/-- For every requested timeout and every clock rate from 3 Hz up to, but not including,
`2^32` Hz, the effective timeout `wdt_setload` stores is the exact rational
`2 * (load_val + 1) / rate` rounded to the nearest whole second, ties rounding up. -/
theorem wdt_setload_rounds (wdt : sp805_wdt) (timeout : Nat)
    (h3 : 3 ≤ clk_get_rate wdt.clk) (hr : clk_get_rate wdt.clk < U32) :
    ∃ o, wdt_setload wdt timeout = some o ∧
      (o.wdt.wdd.timeout : Int) = spec_effective o.wdt.load_val (clk_get_rate wdt.clk) := by
  have hne : clk_get_rate wdt.clk ≠ 0 := by omega
  refine ⟨_, wdt_setload_eq wdt timeout hne, ?_⟩
  simp only [reload_of_mod]
  rw [spec_effective_eq _ _ hne, seconds_of_lt _ _ hr h3 (reload_of_bounds _ _).2]


/-! ## Claims -/

/-- C1: for every requested timeout and every non-zero clock rate `wdt_setload` returns and
stores a `load_val` with `LOAD_MIN ≤ load_val ≤ LOAD_MAX`; and the bound holds for the device
registered by `sp805_wdt_probe` and after every sequence of `set_timeout`, `start`, `stop`,
`ping`, `get_timeleft` and interrupt-handler calls (and of hardware and clock changes) on it. -/
theorem wdt_load_val_in_range (wdt : sp805_wdt) (timeout : Nat)
    (hrate : clk_get_rate wdt.clk ≠ 0)
    (env : probe_env) (p : probe_outcome) (s0 s : sp805_wdt) (calls : List Call)
    (hprobe : sp805_wdt_probe env = some p) (hreg : p.registered = some s0)
    (hrun : run s0 calls = some s) :
    (∃ o, wdt_setload wdt timeout = some o ∧
      LOAD_MIN ≤ o.wdt.load_val ∧ o.wdt.load_val ≤ LOAD_MAX) ∧
    (LOAD_MIN ≤ s.load_val ∧ s.load_val ≤ LOAD_MAX) := by
  refine ⟨?_, run_load_val hrun (probe_registered_load_val hprobe hreg)⟩
  obtain ⟨o, ho, -, hb⟩ := wdt_setload_some wdt timeout hrate
  exact ⟨o, ho, hb⟩

/-- The bound of C1 on the example device: attached at 1 kHz, then driven through
`demo_calls`. -/
theorem wdt_load_val_in_range_witness :
    clk_get_rate demo_wdt.clk ≠ 0 ∧
    (sp805_wdt_probe demo_env).bind probe_outcome.registered = some demo_wdt ∧
    run demo_wdt demo_calls = some demo_final ∧
    (∃ o, wdt_setload demo_wdt 0 = some o ∧
      LOAD_MIN ≤ o.wdt.load_val ∧ o.wdt.load_val ≤ LOAD_MAX) ∧
    (LOAD_MIN ≤ demo_final.load_val ∧ demo_final.load_val ≤ LOAD_MAX) :=
  ⟨by decide, by decide, by decide,
    wdt_load_val_in_range demo_wdt 0 (by decide) demo_env
      { ret := 0, registered := some demo_wdt, irq_bound := true
        events := [Event.dev_info "registration successful\n"] }
      demo_wdt demo_final demo_calls (by decide) rfl (by decide)⟩

/-- C2 (amended): for every requested timeout `1 ≤ timeout < 2^32` and every clock rate of at
least 2 Hz for which `(rate / 2) * timeout` fits in 64 bits, `wdt_setload` returns and stages
`(rate / 2) * timeout - 1` clamped to `[LOAD_MIN, LOAD_MAX]`, where `rate / 2` is the truncated
integer half of the rate; for an even rate this is the specification's
`floor(rate / 2 * timeout) - 1` clamped to the same range. -/
theorem wdt_setload_reload (wdt : sp805_wdt) (timeout : Nat)
    (ht1 : 1 ≤ timeout) (ht : timeout < U32) (hr : 2 ≤ clk_get_rate wdt.clk)
    (hp : clk_get_rate wdt.clk / 2 * timeout < U64) :
    ∃ o, wdt_setload wdt timeout = some o ∧
      (o.wdt.load_val : Int) =
        clamp_load (((clk_get_rate wdt.clk / 2 * timeout : Nat) : Int) - 1) ∧
      (clk_get_rate wdt.clk % 2 = 0 →
        (o.wdt.load_val : Int) = spec_reload (clk_get_rate wdt.clk) timeout) := by
  have hne : clk_get_rate wdt.clk ≠ 0 := by omega
  have hp1 : 1 ≤ clk_get_rate wdt.clk / 2 * timeout :=
    Nat.mul_pos (Nat.div_pos hr (by decide)) ht1
  refine ⟨_, wdt_setload_eq wdt timeout hne, ?_, ?_⟩
  · simp only [reload_of_mod]
    exact reload_of_eq _ _ (clk_get_rate_lt _) ht hp1 hp
  · intro heven
    simp only [reload_of_mod]
    rw [reload_of_eq _ _ (clk_get_rate_lt _) ht hp1 hp, spec_reload_eq]
    congr 3
    obtain ⟨k, hk⟩ : ∃ k, clk_get_rate wdt.clk = 2 * k := ⟨clk_get_rate wdt.clk / 2, by omega⟩
    rw [hk, Nat.mul_assoc, Nat.mul_div_cancel_left _ (by decide : 0 < 2),
      Nat.mul_div_cancel_left _ (by decide : 0 < 2)]

/-- The reload of C2 on the example device at 1 kHz, for a request of 60 seconds. -/
theorem wdt_setload_reload_witness :
    ∃ o, wdt_setload demo_wdt 60 = some o ∧
      (o.wdt.load_val : Int) = clamp_load (((clk_get_rate demo_wdt.clk / 2 * 60 : Nat) : Int) - 1) ∧
      (clk_get_rate demo_wdt.clk % 2 = 0 →
        (o.wdt.load_val : Int) = spec_reload (clk_get_rate demo_wdt.clk) 60) :=
  wdt_setload_reload demo_wdt 60 (by decide) (by decide) (by decide) (by decide)

/-- C2 (as stated) fails: on a 32767 Hz clock a request of 60 s stages
`16383 * 60 - 1 = 982979`, while `floor(32767 / 2 * 60) - 1 = 983009`. -/
theorem wdt_setload_reload_counterexample :
    (wdt_setload (demo_wdt_at 32767) 60).map (fun o => (o.wdt.load_val : Int)) = some 982979 ∧
    spec_reload (clk_get_rate (demo_wdt_at 32767).clk) 60 = 983009 := by
  refine ⟨by decide, ?_⟩
  rw [spec_reload_eq]
  decide

/-- C3: evaluation of `wdt_setload` on a 1 Hz clock, for a request of 60 seconds: the
staged reload is `load_val = 0xFFFFFFFF` and the effective timeout stored in `wdd->timeout`
is `0`, while the exact `2 * (load_val + 1) / 1` rounds to `2^33`. -/
theorem wdt_setload_effective_one_hz :
    (wdt_setload (demo_wdt_at 1) 60).map (fun o => (o.wdt.load_val, o.wdt.wdd.timeout)) =
      some (4294967295, 0) ∧
    spec_effective 4294967295 (clk_get_rate (demo_wdt_at 1).clk) = 8589934592 := by
  refine ⟨by decide, ?_⟩
  rw [spec_effective_eq _ _ (by decide)]
  decide

/-- C4: evaluation of `wdt_setload` for a request of 0 seconds on a 1 kHz clock: the staged
reload value is `LOAD_MAX = 0xFFFFFFFF`, not `LOAD_MIN`, and the effective timeout is
8589935 seconds. -/
theorem wdt_setload_zero_timeout :
    (wdt_setload demo_wdt 0).map (fun o => (o.wdt.load_val, o.wdt.wdd.timeout)) =
      some (LOAD_MAX, 8589935) := by
  decide

/-- C5 (amended): for every requested timeout and every clock rate with `2 ≤ rate < 2^32`
that is even or at least `2^17` Hz, if `e` is the effective timeout produced by
`wdt_setload`, then calling `wdt_setload` with `e` next yields the effective timeout `e`
again. -/
theorem wdt_setload_fixed_point (wdt : sp805_wdt) (timeout : Nat)
    (h2 : 2 ≤ clk_get_rate wdt.clk) (hr : clk_get_rate wdt.clk < U32)
    (hc : clk_get_rate wdt.clk % 2 = 0 ∨ 2 ^ 17 ≤ clk_get_rate wdt.clk) :
    ∃ o1 o2, wdt_setload wdt timeout = some o1 ∧
      wdt_setload o1.wdt o1.wdt.wdd.timeout = some o2 ∧
      o2.wdt.wdd.timeout = o1.wdt.wdd.timeout := by
  have hne : clk_get_rate wdt.clk ≠ 0 := by omega
  refine ⟨_, _, wdt_setload_eq wdt timeout hne, wdt_setload_eq _ _ hne, ?_⟩
  simp only
  rw [← reload_of_mod_timeout _ timeout]
  exact seconds_of_fixed _ _ h2 hr hc (Nat.mod_lt _ (by decide))

/-- The fixed point of C5 on the example device at 1 kHz, for a request of 0 seconds. -/
theorem wdt_setload_fixed_point_witness :
    ∃ o1 o2, wdt_setload demo_wdt 0 = some o1 ∧
      wdt_setload o1.wdt o1.wdt.wdd.timeout = some o2 ∧
      o2.wdt.wdd.timeout = o1.wdt.wdd.timeout :=
  wdt_setload_fixed_point demo_wdt 0 (by decide) (by decide) (by decide)

/-- C5 (as stated) fails: on a 32767 Hz clock a request of 20000 s yields the effective
timeout 19999 s, and requesting 19999 s next yields 19998 s. -/
theorem wdt_setload_fixed_point_counterexample :
    (wdt_setload (demo_wdt_at 32767) 20000).map (fun o => o.wdt.wdd.timeout) = some 19999 ∧
    ((wdt_setload (demo_wdt_at 32767) 20000).bind fun o =>
      (wdt_setload o.wdt o.wdt.wdd.timeout).map fun o2 => o2.wdt.wdd.timeout) = some 19998 := by
  decide

/-- C6: if enabling the clock fails, `wdt_enable` returns exactly the clock-enable error and
leaves the whole device structure (registers, clock, `load_val`, effective timeout, warning
flag) unchanged; it performs no register write, and the watchdog is armed afterwards only if
it was before. -/
theorem wdt_enable_clock_failure (wdt : sp805_wdt) (h : wdt.clk.enable_ret ≠ 0) :
    (wdt_enable wdt).ret = (clk_prepare_enable wdt.clk).1 ∧
    (wdt_enable wdt).ret = wdt.clk.enable_ret ∧
    (wdt_enable wdt).wdt = wdt ∧
    (∀ val off, Event.writel val off ∉ (wdt_enable wdt).events) ∧
    armed (wdt_enable wdt).wdt.regs = armed wdt.regs := by
  rw [wdt_enable, wdt_config_start_fail_eq wdt h]
  simp [clk_prepare_enable, h]

/-- The failed start of C6 on the example device whose clock cannot be enabled. -/
theorem wdt_enable_clock_failure_witness :
    (wdt_enable demo_wdt_noclk).ret = (clk_prepare_enable demo_wdt_noclk.clk).1 ∧
    (wdt_enable demo_wdt_noclk).ret = -5 ∧
    (wdt_enable demo_wdt_noclk).wdt = demo_wdt_noclk ∧
    (∀ val off, Event.writel val off ∉ (wdt_enable demo_wdt_noclk).events) ∧
    armed (wdt_enable demo_wdt_noclk).wdt.regs = armed demo_wdt_noclk.regs :=
  wdt_enable_clock_failure demo_wdt_noclk (by decide)

/-- C7 (amended): for every device state, `ris_status` is false when `wdt_ping` returns, and
when `wdt_enable` returns success; a `wdt_enable` whose clock enable fails returns that error
and leaves `ris_status` as it was. -/
theorem config_clears_ris_status (wdt : sp805_wdt) :
    (wdt_ping wdt).wdt.ris_status = false ∧
    ((wdt_enable wdt).ret = 0 → (wdt_enable wdt).wdt.ris_status = false) ∧
    (wdt.clk.enable_ret ≠ 0 →
      (wdt_enable wdt).ret = wdt.clk.enable_ret ∧
      (wdt_enable wdt).wdt.ris_status = wdt.ris_status) := by
  refine ⟨?_, ?_, ?_⟩
  · rw [wdt_ping, wdt_config_ping_eq]
  · by_cases h : wdt.clk.enable_ret = 0
    · rw [wdt_enable, wdt_config_start_eq wdt h]
      intro _
      trivial
    · rw [wdt_enable, wdt_config_start_fail_eq wdt h]
      intro h0
      exact absurd h0 h
  · intro h
    rw [wdt_enable, wdt_config_start_fail_eq wdt h]
    exact ⟨rfl, rfl⟩

/-- The warning flag of C7 after a keepalive and a start on an example device, and after a
failed start. -/
theorem config_clears_ris_status_witness :
    (wdt_ping demo_final).wdt.ris_status = false ∧
    (wdt_enable demo_final).wdt.ris_status = false ∧
    (wdt_enable demo_wdt_noclk).ret = -5 ∧
    (wdt_enable demo_wdt_noclk).wdt.ris_status = true :=
  ⟨(config_clears_ris_status demo_final).1,
   (config_clears_ris_status demo_final).2.1 (by decide),
   (config_clears_ris_status demo_wdt_noclk).2.2 (by decide)⟩

/-- C7 (as stated) fails: with a warning latched and a clock that cannot be enabled,
`wdt_enable` returns the error `-5` with `ris_status` still true. -/
theorem config_clears_ris_status_counterexample :
    demo_wdt_noclk.ris_status = true ∧
    (wdt_enable demo_wdt_noclk).ret = -5 ∧
    (wdt_enable demo_wdt_noclk).wdt.ris_status = true := by
  decide

/-- C8: for every device state in which the clock enable succeeds, `wdt_enable` returns 0 and
afterwards the load register holds the staged `load_val`, `INT_MASK` has been written to the
interrupt-clear register and the pending interrupt is cleared, the control register holds
`INT_ENABLE | RESET_ENABLE` (bits 0 and 1 both set), the lock register holds `LOCK`, the
clock has one more enable, and the watchdog is armed. -/
theorem wdt_enable_success (wdt : sp805_wdt) (h : wdt.clk.enable_ret = 0) :
    (wdt_enable wdt).ret = 0 ∧
    (wdt_enable wdt).wdt.regs.load = wdt.load_val ∧
    Event.writel INT_MASK WDTINTCLR ∈ (wdt_enable wdt).events ∧
    (wdt_enable wdt).wdt.regs.intclr = INT_MASK ∧
    (wdt_enable wdt).wdt.regs.ris = 0 ∧
    (wdt_enable wdt).wdt.regs.control = INT_ENABLE ||| RESET_ENABLE ∧
    (wdt_enable wdt).wdt.regs.control.testBit 0 = true ∧
    (wdt_enable wdt).wdt.regs.control.testBit 1 = true ∧
    (wdt_enable wdt).wdt.regs.lock = LOCK ∧
    (wdt_enable wdt).wdt.clk.enable_count = wdt.clk.enable_count + 1 ∧
    armed (wdt_enable wdt).wdt.regs = true := by
  rw [wdt_enable, wdt_config_start_eq wdt h]
  refine ⟨rfl, rfl, ?_, rfl, rfl, rfl, ?_, ?_, rfl, rfl, ?_⟩
  · simp
  · show (INT_ENABLE ||| RESET_ENABLE).testBit 0 = true
    decide
  · show (INT_ENABLE ||| RESET_ENABLE).testBit 1 = true
    decide
  · show ((INT_ENABLE ||| RESET_ENABLE) &&& (INT_ENABLE ||| RESET_ENABLE) ==
      (INT_ENABLE ||| RESET_ENABLE)) = true
    decide

/-- The successful start of C8 on the example device. -/
theorem wdt_enable_success_witness :
    (wdt_enable demo_wdt).ret = 0 ∧
    (wdt_enable demo_wdt).wdt.regs.load = 29999 ∧
    Event.writel INT_MASK WDTINTCLR ∈ (wdt_enable demo_wdt).events ∧
    (wdt_enable demo_wdt).wdt.regs.intclr = INT_MASK ∧
    (wdt_enable demo_wdt).wdt.regs.ris = 0 ∧
    (wdt_enable demo_wdt).wdt.regs.control = INT_ENABLE ||| RESET_ENABLE ∧
    (wdt_enable demo_wdt).wdt.regs.control.testBit 0 = true ∧
    (wdt_enable demo_wdt).wdt.regs.control.testBit 1 = true ∧
    (wdt_enable demo_wdt).wdt.regs.lock = LOCK ∧
    (wdt_enable demo_wdt).wdt.clk.enable_count = 0 + 1 ∧
    armed (wdt_enable demo_wdt).wdt.regs = true :=
  wdt_enable_success demo_wdt (by decide)

/-- C9: for every device state, `wdt_ping` returns 0, writes `UNLOCK`, `load_val`, `INT_MASK`
and `LOCK` to the lock, load, interrupt-clear and lock registers (the same writes to these
registers, and the same resulting contents, as a `wdt_enable` from that state whose clock
enable succeeds), writes nothing to the control register, and leaves the control register
and the clock exactly as they were. -/
theorem wdt_ping_frame (wdt : sp805_wdt) :
    (wdt_ping wdt).ret = 0 ∧
    writes_to [WDTLOCK, WDTLOAD, WDTINTCLR] (wdt_ping wdt).events =
      [Event.writel UNLOCK WDTLOCK, Event.writel wdt.load_val WDTLOAD,
       Event.writel INT_MASK WDTINTCLR, Event.writel LOCK WDTLOCK] ∧
    writes_to [WDTCONTROL] (wdt_ping wdt).events = [] ∧
    (wdt_ping wdt).wdt.regs.control = wdt.regs.control ∧
    (wdt_ping wdt).wdt.clk = wdt.clk ∧
    (wdt.clk.enable_ret = 0 →
      (wdt_enable wdt).ret = 0 ∧
      writes_to [WDTLOCK, WDTLOAD, WDTINTCLR] (wdt_enable wdt).events =
        writes_to [WDTLOCK, WDTLOAD, WDTINTCLR] (wdt_ping wdt).events ∧
      (wdt_enable wdt).wdt.regs.lock = (wdt_ping wdt).wdt.regs.lock ∧
      (wdt_enable wdt).wdt.regs.load = (wdt_ping wdt).wdt.regs.load ∧
      (wdt_enable wdt).wdt.regs.intclr = (wdt_ping wdt).wdt.regs.intclr) := by
  rw [wdt_ping, wdt_config_ping_eq]
  refine ⟨rfl, ?_, ?_, rfl, rfl, ?_⟩
  · cases wdt.ris_status <;> simp [writes_to, WDTLOCK, WDTLOAD, WDTINTCLR]
  · cases wdt.ris_status <;> simp [writes_to, WDTLOCK, WDTLOAD, WDTINTCLR, WDTCONTROL]
  · intro h
    rw [wdt_enable, wdt_config_start_eq wdt h]
    refine ⟨rfl, ?_, rfl, rfl, rfl⟩
    cases wdt.ris_status <;> simp [writes_to, WDTLOCK, WDTLOAD, WDTINTCLR, WDTCONTROL]

/-- The keepalive of C9 on the example device. -/
theorem wdt_ping_frame_witness :
    (wdt_ping demo_wdt).ret = 0 ∧
    (wdt_ping demo_wdt).wdt.regs.control = demo_wdt.regs.control ∧
    (wdt_ping demo_wdt).wdt.clk = demo_wdt.clk ∧
    writes_to [WDTLOCK, WDTLOAD, WDTINTCLR] (wdt_enable demo_wdt).events =
      writes_to [WDTLOCK, WDTLOAD, WDTINTCLR] (wdt_ping demo_wdt).events :=
  ⟨(wdt_ping_frame demo_wdt).1, (wdt_ping_frame demo_wdt).2.2.2.1,
   (wdt_ping_frame demo_wdt).2.2.2.2.1,
   ((wdt_ping_frame demo_wdt).2.2.2.2.2 (by decide)).2.1⟩

/-- C10: for every device state (on a non-zero clock rate) and every requested timeout,
`wdt_setload` returns 0, accesses no register and changes only the staged `load_val` and the
effective timeout: the registers, the clock and `ris_status` are unchanged; and the next
`wdt_ping`, and the next `wdt_enable` whose clock enable succeeds, write the newly staged
`load_val` to the load register. -/
theorem wdt_setload_frame (wdt : sp805_wdt) (timeout : Nat)
    (hrate : clk_get_rate wdt.clk ≠ 0) :
    ∃ o, wdt_setload wdt timeout = some o ∧ o.ret = 0 ∧ o.events = [] ∧
      o.wdt = { wdt with load_val := o.wdt.load_val
                         wdd := { wdt.wdd with timeout := o.wdt.wdd.timeout } } ∧
      o.wdt.regs = wdt.regs ∧ o.wdt.clk = wdt.clk ∧ o.wdt.ris_status = wdt.ris_status ∧
      Event.writel o.wdt.load_val WDTLOAD ∈ (wdt_ping o.wdt).events ∧
      (wdt_ping o.wdt).wdt.regs.load = o.wdt.load_val ∧
      (o.wdt.clk.enable_ret = 0 →
        (wdt_enable o.wdt).ret = 0 ∧
        Event.writel o.wdt.load_val WDTLOAD ∈ (wdt_enable o.wdt).events ∧
        (wdt_enable o.wdt).wdt.regs.load = o.wdt.load_val) := by
  refine ⟨_, wdt_setload_eq wdt timeout hrate, rfl, rfl, rfl, rfl, rfl, rfl, ?_, ?_, ?_⟩
  · rw [wdt_ping, wdt_config_ping_eq]
    simp
  · rw [wdt_ping, wdt_config_ping_eq]
  · intro h
    rw [wdt_enable, wdt_config_start_eq _ h]
    refine ⟨rfl, ?_, rfl⟩
    simp

/-- The frame of C10 on the example device, for a request of 120 seconds. -/
theorem wdt_setload_frame_witness :
    ∃ o, wdt_setload demo_wdt 120 = some o ∧ o.ret = 0 ∧ o.events = [] ∧
      o.wdt = { demo_wdt with load_val := o.wdt.load_val
                              wdd := { demo_wdt.wdd with timeout := o.wdt.wdd.timeout } } ∧
      o.wdt.regs = demo_wdt.regs ∧ o.wdt.clk = demo_wdt.clk ∧
      o.wdt.ris_status = demo_wdt.ris_status ∧
      Event.writel o.wdt.load_val WDTLOAD ∈ (wdt_ping o.wdt).events ∧
      (wdt_ping o.wdt).wdt.regs.load = o.wdt.load_val ∧
      (o.wdt.clk.enable_ret = 0 →
        (wdt_enable o.wdt).ret = 0 ∧
        Event.writel o.wdt.load_val WDTLOAD ∈ (wdt_enable o.wdt).events ∧
        (wdt_enable o.wdt).wdt.regs.load = o.wdt.load_val) :=
  wdt_setload_frame demo_wdt 120 (by decide)

/-- C11: evaluation of `wdt_timeleft` right after a start with the reload clamped to
`LOAD_MAX` (a request of 600 s on a 24 MHz clock, effective timeout 358 s): the countdown
register and `load_val` are both `0xFFFFFFFF`, the raw interrupt status is clear, and
`wdt_timeleft` returns 178, i.e. `floor(v / rate)`, while
`floor((v + load_val + 1) / rate)` is 357. -/
theorem wdt_timeleft_at_load_max :
    ((run (demo_wdt_at 24000000) [Call.set_timeout 600, Call.start]).bind fun s =>
      (wdt_timeleft s).map fun o =>
        (s.load_val, s.wdd.timeout, s.regs.value, s.regs.ris, o.ret)) =
      some (4294967295, 358, 4294967295, 0, 178) ∧
    (4294967295 + 4294967295 + 1) / clk_get_rate (demo_wdt_at 24000000).clk = 357 := by
  decide

/-- C12 (amended): at a clock rate of at least 3 Hz and below `2^32` Hz, in every state
reached by staging a timeout with `wdt_setload`, a successful `wdt_enable`, and then any
sequence of keepalives, interrupt-handler calls, time-left queries, timeout changes each
followed at once by the keepalive that applies it, and hardware countdown steps in which the
countdown register never exceeds the value last written to the load register,
`wdt_timeleft` returns a value in `[0, 2 * timeout]`, where `timeout` is the current
`wdd->timeout`. -/
theorem wdt_timeleft_in_range (wdt : sp805_wdt) (timeout : Nat) (o0 : Outcome)
    (cs : List ArmedCall) (s : sp805_wdt)
    (h3 : 3 ≤ clk_get_rate wdt.clk) (hr : clk_get_rate wdt.clk < U32)
    (hen : wdt.clk.enable_ret = 0)
    (hst : wdt_setload wdt timeout = some o0)
    (hrun : run_armed (wdt_enable o0.wdt).wdt cs = some s) :
    ∃ o, wdt_timeleft s = some o ∧ 0 ≤ o.ret ∧ o.ret ≤ 2 * (s.wdd.timeout : Int) := by
  obtain ⟨hrate, hl, ht⟩ := wdt_setload_timed hst
  have hclk : o0.wdt.clk = wdt.clk := by
    rw [wdt_setload_eq wdt timeout (by omega)] at hst
    cases hst
    rfl
  have h0 : in_step (wdt_enable o0.wdt).wdt :=
    in_step_start o0.wdt (by rw [hclk]; exact hen) (by rw [hrate]; exact ⟨h3, hr⟩) hl ht
  exact wdt_timeleft_in_step s (run_armed_in_step hrun h0)

/-- The bound of C12 on the example device: 60 s staged at 1 kHz, start, then
`demo_armed_calls`; the query returns 0 with a timeout of 10 s. -/
theorem wdt_timeleft_in_range_witness :
    run_armed (wdt_enable demo_wdt).wdt demo_armed_calls = some demo_armed_final ∧
    ∃ o, wdt_timeleft demo_armed_final = some o ∧ 0 ≤ o.ret ∧
      o.ret ≤ 2 * (demo_armed_final.wdd.timeout : Int) :=
  ⟨by decide,
   wdt_timeleft_in_range demo_wdt 60
    { ret := 0, wdt := demo_wdt, events := [] } demo_armed_calls demo_armed_final
    (by decide) (by decide) (by decide) (by decide) (by decide)⟩

/-- C12 (as stated) fails: after attach at 1 kHz (60 s staged), a start and a `wdt_setload`
of 1 s, the countdown register still holds the 29999 written to the load register, the
effective timeout is 1 s, and `wdt_timeleft` returns 30, more than `2 * 1`. -/
theorem wdt_timeleft_in_range_counterexample :
    ((run demo_wdt [Call.start, Call.set_timeout 1]).bind fun s =>
      (wdt_timeleft s).map fun o => (s.regs.value, s.regs.load, s.wdd.timeout, o.ret)) =
      some (29999, 29999, 1, 30) := by
  decide

/-- C13: starting with no warning latched, any number `n ≥ 1` of consecutive invocations of
`sp805_wdt_interrupt` that each read the raw interrupt status bit as asserted leave
`ris_status = true` and log the "about to reboot" line exactly once in total; there is one
outcome per invocation and every invocation returns `IRQ_HANDLED`. -/
theorem interrupt_edge_triggered (wdt : sp805_wdt) (rs : List Nat)
    (hs : wdt.ris_status = false) (hne : rs ≠ [])
    (hr : ∀ r ∈ rs, r &&& INT_MASK ≠ 0) :
    (last_wdt wdt (interrupts wdt rs)).ris_status = true ∧
    (all_events (interrupts wdt rs)).count about_to_reboot = 1 ∧
    (interrupts wdt rs).length = rs.length ∧
    ∀ o ∈ interrupts wdt rs, o.ret = IRQ_HANDLED := by
  have hodd : ∀ r ∈ rs, r % 2 = 1 := by
    intro r hmem
    have h := hr r hmem
    have h1 : INT_MASK = 1 := by decide
    rw [h1, Nat.and_one_is_mod] at h
    omega
  cases rs with
  | nil => exact absurd rfl hne
  | cons r rest =>
    obtain ⟨h1, h2, h3⟩ := interrupts_edge r rest wdt hs hodd
    exact ⟨h1, h2, interrupts_length _ _, h3⟩

/-- The burst of C13 on the example device: three invocations with the status asserted. -/
theorem interrupt_edge_triggered_witness :
    (last_wdt demo_wdt (interrupts demo_wdt [1, 1, 1])).ris_status = true ∧
    (all_events (interrupts demo_wdt [1, 1, 1])).count about_to_reboot = 1 ∧
    (interrupts demo_wdt [1, 1, 1]).length = 3 ∧
    ∀ o ∈ interrupts demo_wdt [1, 1, 1], o.ret = IRQ_HANDLED :=
  interrupt_edge_triggered demo_wdt [1, 1, 1] rfl (by decide) (by decide)

/-- C14: `wdt_disable` on a device that is already stopped (control register cleared, block
locked, clock released) returns 0 and leaves the device structure (registers, clock,
`load_val`, effective timeout, `ris_status`) equal to what it was, so a second `wdt_disable`
has the same outcome as the first; and a `wdt_disable` of a device with at most one
outstanding clock enable leaves it stopped, so that a second one changes nothing. -/
theorem wdt_disable_stopped (wdt : sp805_wdt) (hs : stopped wdt = true) :
    (wdt_disable wdt).ret = 0 ∧
    (wdt_disable wdt).wdt = wdt ∧
    wdt_disable (wdt_disable wdt).wdt = wdt_disable wdt ∧
    (∀ w : sp805_wdt, w.clk.enable_count ≤ 1 →
      stopped (wdt_disable w).wdt = true ∧
      (wdt_disable (wdt_disable w).wdt).ret = 0 ∧
      (wdt_disable (wdt_disable w).wdt).wdt = (wdt_disable w).wdt) := by
  have key : ∀ w : sp805_wdt, stopped w = true → (wdt_disable w).wdt = w := by
    intro w hw
    rw [wdt_disable_eq]
    simp only [stopped, Bool.and_eq_true, beq_iff_eq] at hw
    obtain ⟨⟨h1, h2⟩, h3⟩ := hw
    cases w with
    | mk wdd regs clk load_val irq ris_status =>
      cases regs
      cases clk
      simp_all
  have hstop : ∀ w : sp805_wdt, w.clk.enable_count ≤ 1 → stopped (wdt_disable w).wdt = true := by
    intro w hw
    rw [wdt_disable_eq]
    simp only [stopped, Bool.and_eq_true, beq_iff_eq, and_self, true_and]
    omega
  refine ⟨?_, key wdt hs, ?_, ?_⟩
  · rw [wdt_disable_eq]
  · rw [key wdt hs]
  · intro w hw
    refine ⟨hstop w hw, ?_, key _ (hstop w hw)⟩
    rw [wdt_disable_eq]

/-- The idempotent disarm of C14 on the stopped example device, and after stopping the armed
one. -/
theorem wdt_disable_stopped_witness :
    stopped demo_wdt = true ∧
    (wdt_disable demo_wdt).ret = 0 ∧
    (wdt_disable demo_wdt).wdt = demo_wdt ∧
    (wdt_disable (wdt_disable demo_armed).wdt).wdt = (wdt_disable demo_armed).wdt :=
  ⟨by decide, (wdt_disable_stopped demo_wdt (by decide)).1,
   (wdt_disable_stopped demo_wdt (by decide)).2.1,
   ((wdt_disable_stopped demo_wdt (by decide)).2.2.2 demo_armed (by decide)).2.2⟩

/-- C15: for every device whose `active` flag is true and whose clock enable succeeds,
`sp805_wdt_suspend` is `wdt_disable`: it returns 0 after writing `UNLOCK`, 0 to the control
register and `LOCK`, leaves the watchdog disarmed with the block locked, and releases the
clock; `sp805_wdt_resume` after it is `wdt_enable`: it returns 0, enables the clock again and
leaves the `active` flag true, the control register holding `INT_ENABLE | RESET_ENABLE`
(armed), the load register and the countdown holding the `load_val` staged before the
suspend, and `load_val` and the effective timeout unchanged; when the `active` flag is false,
both return 0, change nothing and access no register. -/
theorem suspend_resume (wdt : sp805_wdt) :
    (wdt.wdd.active = true → wdt.clk.enable_ret = 0 →
      (sp805_wdt_suspend wdt).ret = 0 ∧
      (sp805_wdt_resume (sp805_wdt_suspend wdt).wdt).ret = 0 ∧
      (sp805_wdt_resume (sp805_wdt_suspend wdt).wdt).wdt.wdd.active = true ∧
      (sp805_wdt_resume (sp805_wdt_suspend wdt).wdt).wdt.regs.control =
        INT_ENABLE ||| RESET_ENABLE ∧
      armed (sp805_wdt_resume (sp805_wdt_suspend wdt).wdt).wdt.regs = true ∧
      (sp805_wdt_resume (sp805_wdt_suspend wdt).wdt).wdt.regs.load = wdt.load_val ∧
      (sp805_wdt_resume (sp805_wdt_suspend wdt).wdt).wdt.load_val = wdt.load_val ∧
      (sp805_wdt_resume (sp805_wdt_suspend wdt).wdt).wdt.wdd.timeout = wdt.wdd.timeout ∧
      sp805_wdt_suspend wdt = wdt_disable wdt ∧
      (sp805_wdt_suspend wdt).events =
        [Event.writel UNLOCK WDTLOCK, Event.writel 0 WDTCONTROL,
         Event.writel LOCK WDTLOCK, Event.readl WDTLOCK] ∧
      (sp805_wdt_suspend wdt).wdt.regs.control = 0 ∧
      armed (sp805_wdt_suspend wdt).wdt.regs = false ∧
      (sp805_wdt_suspend wdt).wdt.regs.lock = LOCK ∧
      (sp805_wdt_suspend wdt).wdt.clk.enable_count = wdt.clk.enable_count - 1 ∧
      (sp805_wdt_suspend wdt).wdt.wdd.active = true ∧
      sp805_wdt_resume (sp805_wdt_suspend wdt).wdt = wdt_enable (sp805_wdt_suspend wdt).wdt ∧
      writes (sp805_wdt_resume (sp805_wdt_suspend wdt).wdt).events =
        [Event.writel UNLOCK WDTLOCK, Event.writel wdt.load_val WDTLOAD,
         Event.writel INT_MASK WDTINTCLR,
         Event.writel (INT_ENABLE ||| RESET_ENABLE) WDTCONTROL,
         Event.writel LOCK WDTLOCK] ∧
      (sp805_wdt_resume (sp805_wdt_suspend wdt).wdt).wdt.regs.value = wdt.load_val ∧
      (sp805_wdt_resume (sp805_wdt_suspend wdt).wdt).wdt.regs.lock = LOCK ∧
      (sp805_wdt_resume (sp805_wdt_suspend wdt).wdt).wdt.clk.enable_count =
        wdt.clk.enable_count - 1 + 1) ∧
    (wdt.wdd.active = false →
      sp805_wdt_suspend wdt = { ret := 0, wdt := wdt, events := [] } ∧
      sp805_wdt_resume wdt = { ret := 0, wdt := wdt, events := [] }) := by
  constructor
  · intro ha he
    have ha' : (wdt_disable wdt).wdt.wdd.active = true := by
      rw [wdt_disable_eq]
      exact ha
    have he' : (wdt_disable wdt).wdt.clk.enable_ret = 0 := by
      rw [wdt_disable_eq]
      exact he
    have hsus : sp805_wdt_suspend wdt = wdt_disable wdt := suspend_active wdt ha
    have hres : sp805_wdt_resume (wdt_disable wdt).wdt = wdt_enable (wdt_disable wdt).wdt :=
      resume_active _ ha'
    have harm : armed
        { load := wdt.load_val, value := wdt.load_val, control := INT_ENABLE ||| RESET_ENABLE,
          intclr := INT_MASK, ris := 0, mis := 0, lock := LOCK } = true := by
      show ((INT_ENABLE ||| RESET_ENABLE) &&& (INT_ENABLE ||| RESET_ENABLE) ==
        (INT_ENABLE ||| RESET_ENABLE)) = true
      decide
    have hdis : ∀ r : Regs, armed { r with control := 0, lock := LOCK } = false := by
      intro r
      show (0 &&& (INT_ENABLE ||| RESET_ENABLE) == (INT_ENABLE ||| RESET_ENABLE)) = false
      decide
    rw [hsus, hres, wdt_enable, wdt_config_start_eq _ he', wdt_disable_eq]
    refine ⟨rfl, rfl, ha, rfl, harm, rfl, rfl, rfl, rfl, rfl, rfl, hdis _, rfl, rfl, ha, rfl,
      ?_, rfl, rfl, rfl⟩
    cases wdt.ris_status <;> simp [writes, is_write]
  · intro ha
    simp [sp805_wdt_suspend, sp805_wdt_resume, watchdog_active, ha]

/-- The suspend/resume cycle of C15 on an armed example device, and on the inactive one. -/
theorem suspend_resume_witness :
    (sp805_wdt_resume (sp805_wdt_suspend demo_armed).wdt).wdt.wdd.active = true ∧
    (sp805_wdt_resume (sp805_wdt_suspend demo_armed).wdt).wdt.regs.control =
      INT_ENABLE ||| RESET_ENABLE ∧
    (sp805_wdt_resume (sp805_wdt_suspend demo_armed).wdt).wdt.regs.load = 29999 ∧
    (sp805_wdt_suspend demo_armed).wdt.regs.control = 0 ∧
    armed (sp805_wdt_suspend demo_armed).wdt.regs = false ∧
    sp805_wdt_suspend demo_wdt = { ret := 0, wdt := demo_wdt, events := [] } :=
  ⟨((suspend_resume demo_armed).1 (by decide) (by decide)).2.2.1,
   ((suspend_resume demo_armed).1 (by decide) (by decide)).2.2.2.1,
   ((suspend_resume demo_armed).1 (by decide) (by decide)).2.2.2.2.2.1,
   ((suspend_resume demo_armed).1 (by decide) (by decide)).2.2.2.2.2.2.2.2.2.2.1,
   ((suspend_resume demo_armed).1 (by decide) (by decide)).2.2.2.2.2.2.2.2.2.2.2.1,
   ((suspend_resume demo_wdt).2 (by decide)).1⟩

/-- C16: evaluation of `sp805_wdt_probe` when every step succeeds except that
`irq_of_parse_and_map` returns 0: the probe logs "sp805 failed to get IRQ" and
"Probe Failed!!!", binds no handler, and returns 0. -/
theorem sp805_wdt_probe_no_irq :
    (sp805_wdt_probe { demo_env with irq := 0 }).map
        (fun p => (p.ret, p.irq_bound, p.events)) =
      some (0, false, [Event.dev_err "sp805 failed to get IRQ\n",
                       Event.dev_err "Probe Failed!!!\n"]) := by
  decide

/-- C17 (amended): on a 1000 Hz clock a request of 60 s stages the reload 29999 and the
effective timeout 60; and for every even clock rate below `2^32` Hz and every requested
timeout `t < 2^32` with `2 ≤ (rate / 2) * t ≤ 2^32`, `wdt_setload` returns, stages the
reload `(rate / 2) * t - 1` and stores the effective timeout `t` exactly. -/
theorem wdt_setload_exact (wdt : sp805_wdt) (timeout : Nat) (ht : timeout < U32)
    (hev : clk_get_rate wdt.clk % 2 = 0) (hr : clk_get_rate wdt.clk < U32)
    (hp2 : 2 ≤ clk_get_rate wdt.clk / 2 * timeout)
    (hp3 : clk_get_rate wdt.clk / 2 * timeout ≤ U32) :
    (wdt_setload (demo_wdt_at 1000) 60).map (fun o => (o.wdt.load_val, o.wdt.wdd.timeout)) =
      some (29999, 60) ∧
    ∃ o, wdt_setload wdt timeout = some o ∧
      o.wdt.load_val = clk_get_rate wdt.clk / 2 * timeout - 1 ∧
      o.wdt.wdd.timeout = timeout := by
  refine ⟨by decide, ?_⟩
  have hne : clk_get_rate wdt.clk ≠ 0 := by
    intro h0
    rw [h0] at hp2
    simp at hp2
  refine ⟨_, wdt_setload_eq wdt timeout hne, ?_, ?_⟩
  · simp only [reload_of_mod]
    exact reload_of_mid _ _ (clk_get_rate_lt _) ht hp2 hp3
  · exact seconds_of_exact_u64 _ _ hr ht hp2 hp3 (Or.inl hev)

/-- The exact staging of C17 on a 24 MHz clock, for a request of 30 seconds. -/
theorem wdt_setload_exact_witness :
    (wdt_setload (demo_wdt_at 1000) 60).map (fun o => (o.wdt.load_val, o.wdt.wdd.timeout)) =
      some (29999, 60) ∧
    ∃ o, wdt_setload (demo_wdt_at 24000000) 30 = some o ∧
      o.wdt.load_val = clk_get_rate (demo_wdt_at 24000000).clk / 2 * 30 - 1 ∧
      o.wdt.wdd.timeout = 30 :=
  wdt_setload_exact (demo_wdt_at 24000000) 30 (by decide) (by decide) (by decide) (by decide)
    (by decide)

/-- C17 (as stated) fails: on an even clock rate of `2^32 + 2` Hz a request of 1 s has
`(rate / 2) * t = 2^31 + 1`, within `[2, 2^32]`, and stages the reload `2^31`, but the
effective timeout stored is 3221225473, not 1: `div_u64` divides by the low 32 bits of the
rate, which are 2. -/
theorem wdt_setload_exact_counterexample :
    clk_get_rate (demo_wdt_at 4294967298).clk % 2 = 0 ∧
    2 ≤ clk_get_rate (demo_wdt_at 4294967298).clk / 2 * 1 ∧
    clk_get_rate (demo_wdt_at 4294967298).clk / 2 * 1 ≤ U32 ∧
    (wdt_setload (demo_wdt_at 4294967298) 1).map
        (fun o => (o.wdt.load_val, o.wdt.wdd.timeout)) =
      some (2147483648, 3221225473) := by
  decide

/-- C18: for every requested timeout (including 0) and every clock rate from 3 Hz up to,
but not including, `2^32` Hz, `wdt_setload` returns and the effective timeout it stores in
`wdd->timeout` is strictly positive. -/
theorem wdt_setload_positive (wdt : sp805_wdt) (timeout : Nat)
    (h3 : 3 ≤ clk_get_rate wdt.clk) (hr : clk_get_rate wdt.clk < U32) :
    ∃ o, wdt_setload wdt timeout = some o ∧ 0 < o.wdt.wdd.timeout := by
  have hne : clk_get_rate wdt.clk ≠ 0 := by omega
  refine ⟨_, wdt_setload_eq wdt timeout hne, ?_⟩
  show 0 < seconds_of (clk_get_rate wdt.clk) (reload_of (clk_get_rate wdt.clk) timeout)
  rw [← reload_of_mod_timeout _ timeout]
  exact seconds_of_pos _ _ h3 hr (Nat.mod_lt _ (by decide))

/-- The positive effective timeout of C18 on the example device, for a request of 0 seconds. -/
theorem wdt_setload_positive_witness :
    ∃ o, wdt_setload demo_wdt 0 = some o ∧ 0 < o.wdt.wdd.timeout :=
  wdt_setload_positive demo_wdt 0 (by decide) (by decide)

/-- C19: the register accesses of `wdt_enable`, `wdt_ping` and `wdt_disable` follow the lock
protocol: they are one window opened by the write of `UNLOCK` to the lock register, holding
only writes to the load, interrupt-clear and control registers, and closed by the write of
`LOCK` followed by a read of the lock register, after which nothing is accessed (a
`wdt_enable` whose clock enable fails accesses no register at all); hence from a locked
register block each of them returns with the block locked; and `wdt_setload`, `wdt_timeleft`
and `sp805_wdt_interrupt` write no register and leave the register block as it was. -/
theorem lock_protocol_holds (wdt : sp805_wdt) (timeout : Nat) (irq : Int) :
    lock_protocol (wdt_enable wdt).events = true ∧
    lock_protocol (wdt_ping wdt).events = true ∧
    lock_protocol (wdt_disable wdt).events = true ∧
    (writes (wdt_ping wdt).events).getLast? = some (Event.writel LOCK WDTLOCK) ∧
    (mmio (wdt_ping wdt).events).getLast? = some (Event.readl WDTLOCK) ∧
    (writes (wdt_disable wdt).events).getLast? = some (Event.writel LOCK WDTLOCK) ∧
    (mmio (wdt_disable wdt).events).getLast? = some (Event.readl WDTLOCK) ∧
    (wdt.clk.enable_ret = 0 →
      (writes (wdt_enable wdt).events).getLast? = some (Event.writel LOCK WDTLOCK) ∧
      (mmio (wdt_enable wdt).events).getLast? = some (Event.readl WDTLOCK)) ∧
    (wdt.clk.enable_ret ≠ 0 → mmio (wdt_enable wdt).events = []) ∧
    (wdt.regs.lock ≠ UNLOCK →
      (wdt_enable wdt).wdt.regs.lock ≠ UNLOCK ∧
      (wdt_ping wdt).wdt.regs.lock ≠ UNLOCK ∧
      (wdt_disable wdt).wdt.regs.lock ≠ UNLOCK) ∧
    (∀ o, wdt_setload wdt timeout = some o → writes o.events = [] ∧ o.wdt.regs = wdt.regs) ∧
    (∀ o, wdt_timeleft wdt = some o → writes o.events = [] ∧ o.wdt.regs = wdt.regs) ∧
    writes (sp805_wdt_interrupt irq wdt).events = [] ∧
    (sp805_wdt_interrupt irq wdt).wdt.regs = wdt.regs := by
  have hping := config_events_protocol wdt.load_val true wdt.ris_status
  have hstart := config_events_protocol wdt.load_val false wdt.ris_status
  simp only [if_true, Bool.false_eq_true, if_false, List.append_nil] at hping hstart
  have hdis : lock_protocol (wdt_disable wdt).events = true ∧
      (writes (wdt_disable wdt).events).getLast? = some (Event.writel LOCK WDTLOCK) ∧
      (mmio (wdt_disable wdt).events).getLast? = some (Event.readl WDTLOCK) := by
    rw [wdt_disable_eq]
    simp [lock_protocol, mmio, is_mmio, writes, is_write, window_body, WDTLOCK, WDTCONTROL]
  have hlock : LOCK ≠ UNLOCK := by decide
  refine ⟨?_, ?_, hdis.1, ?_, ?_, hdis.2.1, hdis.2.2, ?_, ?_, ?_, ?_, ?_, ?_, ?_⟩
  · by_cases h : wdt.clk.enable_ret = 0
    · rw [wdt_enable, wdt_config_start_eq wdt h]
      exact hstart.1
    · rw [wdt_enable, wdt_config_start_fail_eq wdt h]
      rfl
  · rw [wdt_ping, wdt_config_ping_eq]
    exact hping.1
  · rw [wdt_ping, wdt_config_ping_eq]
    exact hping.2.1
  · rw [wdt_ping, wdt_config_ping_eq]
    exact hping.2.2
  · intro h
    rw [wdt_enable, wdt_config_start_eq wdt h]
    exact hstart.2
  · intro h
    rw [wdt_enable, wdt_config_start_fail_eq wdt h]
    rfl
  · intro hl
    refine ⟨?_, ?_, ?_⟩
    · by_cases h : wdt.clk.enable_ret = 0
      · rw [wdt_enable, wdt_config_start_eq wdt h]
        exact hlock
      · rw [wdt_enable, wdt_config_start_fail_eq wdt h]
        exact hl
    · rw [wdt_ping, wdt_config_ping_eq]
      exact hlock
    · rw [wdt_disable_eq]
      exact hlock
  · intro o ho
    by_cases hr : clk_get_rate wdt.clk = 0
    · rw [wdt_setload_none wdt timeout hr] at ho
      cases ho
    · rw [wdt_setload_eq wdt timeout hr] at ho
      cases ho
      exact ⟨rfl, rfl⟩
  · intro o ho
    by_cases hr : clk_get_rate wdt.clk = 0
    · rw [wdt_timeleft_none wdt hr] at ho
      cases ho
    · rw [wdt_timeleft_eq wdt hr] at ho
      cases ho
      exact ⟨rfl, rfl⟩
  · rcases Nat.mod_two_eq_zero_or_one wdt.regs.ris with h | h
    · rw [sp805_wdt_interrupt_clear irq wdt h]
      rfl
    · rw [sp805_wdt_interrupt_asserted irq wdt h]
      cases wdt.ris_status <;> rfl
  · obtain ⟨b, hb⟩ := sp805_wdt_interrupt_frame irq wdt
    rw [hb]

/-- The lock protocol of C19 on the example device. -/
theorem lock_protocol_holds_witness :
    lock_protocol (wdt_enable demo_wdt).events = true ∧
    (writes (wdt_enable demo_wdt).events).getLast? = some (Event.writel LOCK WDTLOCK) ∧
    (mmio (wdt_enable demo_wdt).events).getLast? = some (Event.readl WDTLOCK) ∧
    mmio (wdt_enable demo_wdt_noclk).events = [] ∧
    (wdt_ping demo_wdt).wdt.regs.lock ≠ UNLOCK ∧
    (∀ o, wdt_setload demo_wdt 60 = some o → writes o.events = [] ∧ o.wdt.regs = demo_wdt.regs) :=
  ⟨(lock_protocol_holds demo_wdt 60 5).1,
   ((lock_protocol_holds demo_wdt 60 5).2.2.2.2.2.2.2.1 (by decide)).1,
   ((lock_protocol_holds demo_wdt 60 5).2.2.2.2.2.2.2.1 (by decide)).2,
   (lock_protocol_holds demo_wdt_noclk 60 5).2.2.2.2.2.2.2.2.1 (by decide),
   ((lock_protocol_holds demo_wdt 60 5).2.2.2.2.2.2.2.2.2.1 (by decide)).2.1,
   (lock_protocol_holds demo_wdt 60 5).2.2.2.2.2.2.2.2.2.2.1⟩

/-- C20 (amended): for every clock rate of at least 4 Hz and below `2^32` Hz and every
requested timeout `1 ≤ t < 2^32` such that `(rate / 2) * t` fits in 64 bits, `wdt_setload`
returns and the effective timeout it stores is at most `t`; it equals `t` when the rate is
even and the reload `(rate / 2) * t - 1` is not above `LOAD_MAX`. -/
theorem wdt_setload_not_longer (wdt : sp805_wdt) (timeout : Nat)
    (h4 : 4 ≤ clk_get_rate wdt.clk) (hr : clk_get_rate wdt.clk < U32)
    (ht1 : 1 ≤ timeout) (ht : timeout < U32)
    (hp : clk_get_rate wdt.clk / 2 * timeout < U64) :
    ∃ o, wdt_setload wdt timeout = some o ∧
      o.wdt.wdd.timeout ≤ timeout ∧
      (clk_get_rate wdt.clk % 2 = 0 →
        clk_get_rate wdt.clk / 2 * timeout - 1 ≤ LOAD_MAX →
        o.wdt.wdd.timeout = timeout) := by
  have hne : clk_get_rate wdt.clk ≠ 0 := by omega
  refine ⟨_, wdt_setload_eq wdt timeout hne, ?_, ?_⟩
  · exact seconds_of_le _ _ hr h4 ht1 ht hp
  · intro hev hmax
    have hh : 2 ≤ clk_get_rate wdt.clk / 2 := by omega
    have hp2 : 2 ≤ clk_get_rate wdt.clk / 2 * timeout := by
      calc 2 = 2 * 1 := rfl
        _ ≤ clk_get_rate wdt.clk / 2 * timeout := Nat.mul_le_mul hh ht1
    have hp3 : clk_get_rate wdt.clk / 2 * timeout ≤ U32 := by
      simp only [LOAD_MAX, U32] at *
      omega
    exact seconds_of_exact_u64 _ _ hr ht hp2 hp3 (Or.inl hev)

/-- The upper bound of C20 on a 32767 Hz clock, for a request of 20000 seconds. -/
theorem wdt_setload_not_longer_witness :
    ∃ o, wdt_setload (demo_wdt_at 32767) 20000 = some o ∧
      o.wdt.wdd.timeout ≤ 20000 ∧
      (clk_get_rate (demo_wdt_at 32767).clk % 2 = 0 →
        clk_get_rate (demo_wdt_at 32767).clk / 2 * 20000 - 1 ≤ LOAD_MAX →
        o.wdt.wdd.timeout = 20000) :=
  wdt_setload_not_longer (demo_wdt_at 32767) 20000 (by decide) (by decide) (by decide)
    (by decide) (by decide)

/-- C20 (as stated) fails: on a clock rate of `2^32 + 1000` Hz a request of 60 s, whose
`(rate / 2) * t` fits in 64 bits, stores the effective timeout 10737418, more than 60:
`div_u64` divides by the low 32 bits of the rate, which are 1000. -/
theorem wdt_setload_not_longer_counterexample :
    4 ≤ clk_get_rate (demo_wdt_at 4294968296).clk ∧
    clk_get_rate (demo_wdt_at 4294968296).clk / 2 * 60 < U64 ∧
    (wdt_setload (demo_wdt_at 4294968296) 60).map
        (fun o => (o.wdt.load_val, o.wdt.wdd.timeout)) =
      some (4294967295, 10737418) := by
  decide

end SP805
